import Mathlib

/-!
Verification of the group swipe-matching engine of the cinematch repository
(recom_sys_app: models.py, services.py, views.py, views_group.py, consumers.py).

Shallow embedding conventions:
* Users and movies are identified by natural numbers (Django pks / TMDB ids).
* A group session is identified by a single natural number `gid` which stands
  for the pair (primary key, group_code): `group_code` is declared unique on
  the model, so the two identifiers are in bijection and every lookup by code
  resolves to the session with that pk.
* Database tables are lists of row structures, newest row first (Django's
  `.create` plus the `-created_at` orderings used by the views).
* The per-request `transaction.atomic` block of each view is one atomic state
  transition; concurrent clients are modelled as arbitrary interleavings of
  these atomic transitions, i.e. arbitrary operation sequences.
* Network calls to the TMDB catalog gateway are modelled as oracle inputs
  (`candidates` lists); Channels broadcasts are modelled as emitted `Event`s.
-/

namespace CineMatch

/-- GroupSwipe.Action choices (models.py lines 229-232). -/
inductive Action
  | LIKE
  | DISLIKE
  | SUPER_LIKE
deriving DecidableEq, Repr

/-- GroupMember.Role choices (models.py lines 187-189). -/
inductive Role
  | CREATOR
  | MEMBER
deriving DecidableEq, Repr

/-- Interaction.Status choices (models.py lines 91-95). -/
inductive IStatus
  | LIKE
  | DISLIKE
  | WATCH_LATER
  | WATCHED
deriving DecidableEq, Repr

/-- Session kind. Modelled from the spec: views_group.py, views_community.py and
services.py branch on `group_session.kind == GroupSession.Kind.COMMUNITY`, but the
`kind` field and the `Kind` choices class are absent from the checked-in models.py
(only callers survive in src). The spec (section 3) declares
`kind` (PRIVATE | COMMUNITY), which this type mirrors. -/
inductive Kind
  | PRIVATE
  | COMMUNITY
deriving DecidableEq, Repr

/-- GroupSession row (models.py lines 129-181 plus migration 0005, which adds
`is_public` and `genre_filter`). `gid` stands for both the unique pk and the
unique `group_code`. The `kind` field is modelled from the spec (see `Kind`). -/
structure SessionRow where
  gid : Nat
  creator : Nat
  is_active : Bool
  is_public : Bool
  kind : Kind
  genre_filter : Option Nat
deriving DecidableEq, Repr

/-- GroupMember row (models.py lines 184-219): (group, user) with role and
`is_active` (leave/rejoin without losing history). -/
structure MemberRow where
  gid : Nat
  user : Nat
  role : Role
  is_active : Bool
deriving DecidableEq, Repr

/-- GroupSwipe row (models.py lines 226-262): (group, user, movie) with action. -/
structure SwipeRow where
  gid : Nat
  user : Nat
  movie : Nat
  action : Action
deriving DecidableEq, Repr

/-- GroupMatch row (models.py lines 268-295): (group, movie), unique together.
The `movie_title` snapshot and `matched_at` timestamp carry no logic and are
omitted. -/
structure MatchRow where
  gid : Nat
  movie : Nat
deriving DecidableEq, Repr

/-- Interaction row (models.py lines 90-121), as used by the COMMUNITY branch of
the group swipe endpoints: (user, movie) unique together with a status. -/
structure InteractionRow where
  user : Nat
  movie : Nat
  stat : IStatus
deriving DecidableEq, Repr

/-- The database plus the Django deck cache. `deckCache` is the association list
of `group_deck_<id>` cache entries (services.py line 42). `nextId` is the supply
of fresh session identifiers: `generate_unique_code` (models.py lines 173-181)
retries random codes until one is unused, which is modelled by handing out a
value larger than every identifier in use. -/
structure DB where
  sessions : List SessionRow
  members : List MemberRow
  swipes : List SwipeRow
  matchRows : List MatchRow
  interactions : List InteractionRow
  deckCache : List (Nat × List Nat)
  nextId : Nat
deriving DecidableEq, Repr

/-- Events broadcast over the `match_<group_code>` Channels room
(views_group.py `_broadcast_match_event` and `_broadcast_completion_event`).
Payload fields other than the identifying group and movie are snapshots with no
logic and are omitted. -/
inductive Event
  | match_found (gid movie : Nat)
  | all_members_finished (gid : Nat)
deriving DecidableEq, Repr

/-- HTTP responses of the group endpoints, reduced to the fields the claims are
about. `st` is the HTTP status code of a success response. -/
inductive Resp
  | notFound
  | forbidden
  | like (st : Nat) (success is_match : Bool) (match_data : Option Nat) (already : Bool)
  | dislike (st : Nat) (success : Bool) (already : Bool)
  | interactionLike (st : Nat) (is_match : Bool) (match_data : Option Nat)
  | interactionDislike (st : Nat)
  | deck (movies : List Nat)
  | communityCreated (gid : Nat)
  | communityJoined (gid : Nat)
  | communityAlready (gid : Nat)
  | created (gid : Nat)
  | joinedOk (gid : Nat)
  | cleared (n : Nat)
deriving DecidableEq, Repr

/-- Result of one endpoint call: the new database state, the events broadcast
during the call (in order), and the HTTP response. -/
structure Out where
  db : DB
  events : List Event
  resp : Resp
deriving DecidableEq, Repr

/-! ## Row lookups shared by the views -/

/-- The session lookup `get_object_or_404(GroupSession, group_code=..., is_active=True)`
used by every group view. -/
def findSession (db : DB) (g : Nat) : Option SessionRow :=
  db.sessions.find? (fun s => s.gid == g && s.is_active)

/-- The membership check
`GroupMember.objects.filter(group_session=..., user=..., is_active=True).exists()`. -/
def isActiveMember (db : DB) (g u : Nat) : Bool :=
  db.members.any (fun r => r.gid == g && r.user == u && r.is_active)

/-- Active-member rows of a group,
`GroupMember.objects.filter(group_session=..., is_active=True)`. -/
def activeMembers (db : DB) (g : Nat) : List MemberRow :=
  db.members.filter (fun r => r.gid == g && r.is_active)

/-- `GroupMember.objects.filter(group_session=..., is_active=True).count()`. -/
def activeMemberCount (db : DB) (g : Nat) : Nat :=
  (activeMembers db g).length

/-- Key predicate of the GroupSwipe unique constraint (group, user, movie). -/
def swipeKeyMatch (g u m : Nat) (r : SwipeRow) : Bool :=
  r.gid == g && r.user == u && r.movie == m

/-- `GroupSwipe.objects.filter(group_session=..., user=..., tmdb_id=...).first()`. -/
def findSwipe (db : DB) (g u m : Nat) : Option SwipeRow :=
  db.swipes.find? (swipeKeyMatch g u m)

/-- In-place update `existing_swipe.action = ...; existing_swipe.save()`: replace
the action of the first row matching the (group, user, movie) key. -/
def update_swipe_action (g u m : Nat) (a : Action) : List SwipeRow → List SwipeRow
  | [] => []
  | r :: rs =>
    if swipeKeyMatch g u m r then { r with action := a } :: rs
    else r :: update_swipe_action g u m a rs

/-- Key predicate of the GroupMatch unique constraint (group, movie). -/
def matchKeyMatch (g m : Nat) (r : MatchRow) : Bool :=
  r.gid == g && r.movie == m

/-- Whether a GroupMatch row for (group, movie) exists. -/
def hasMatchRow (db : DB) (g m : Nat) : Bool :=
  db.matchRows.any (matchKeyMatch g m)

/-- Number of GroupMatch rows for (group, movie). -/
def matchRowCount (db : DB) (g m : Nat) : Nat :=
  (db.matchRows.filter (matchKeyMatch g m)).length

/-- Whether any GroupSwipe row for (group, movie) exists, by any user. -/
def hasSwipe (db : DB) (g m : Nat) : Bool :=
  db.swipes.any (fun r => r.gid == g && r.movie == m)

/-- Number of GroupSwipe rows for the unique-constraint key (group, user, movie). -/
def swipeRowCount (db : DB) (g u m : Nat) : Nat :=
  (db.swipes.filter (swipeKeyMatch g u m)).length

/-- In-place update `existing_interaction.status = ...; save()` on the
Interaction table (unique per (user, movie)). -/
def update_interaction_status (u m : Nat) (st : IStatus) : List InteractionRow → List InteractionRow
  | [] => []
  | r :: rs =>
    if r.user == u && r.movie == m then { r with stat := st } :: rs
    else r :: update_interaction_status u m st rs

/-- `Interaction.objects.filter(user=..., tmdb_id=...).first()`. -/
def findInteraction (db : DB) (u m : Nat) : Option InteractionRow :=
  db.interactions.find? (fun r => r.user == u && r.movie == m)

/-! ## RecommendationService (services.py) -/

/-- `RecommendationService.check_group_match` (services.py lines 408-437):
`is_match = like_count >= active_member_count and active_member_count > 0`,
where `like_count` counts GroupSwipe rows for (group, movie) with action LIKE.
Note the source comparison is `>=`, not equality. -/
def likeCount (db : DB) (g m : Nat) : Nat :=
  (db.swipes.filter (fun r => r.gid == g && r.movie == m && decide (r.action = Action.LIKE))).length

def check_group_match (db : DB) (g m : Nat) : Bool :=
  decide (activeMemberCount db g ≤ likeCount db g m) && decide (0 < activeMemberCount db g)

/-- The fixed per-round quota `MOVIES_PER_ROUND = 5` (services.py line 677). -/
def MOVIES_PER_ROUND : Nat := 5

/-- `GroupSwipe.objects.filter(group_session=..., user=member.user).count()`
(services.py lines 687-689): all of the member's swipes in the group, any action. -/
def swipeCountFor (db : DB) (g u : Nat) : Nat :=
  (db.swipes.filter (fun r => r.gid == g && r.user == u)).length

/-- Return value of `check_all_members_finished`. -/
structure CompletionStatus where
  all_finished : Bool
  total_members : Nat
  finished_members : Nat
  total_movies : Nat
deriving DecidableEq, Repr

/-- `RecommendationService.check_all_members_finished` (services.py lines 656-715):
zero active members short-circuits to not-finished; otherwise a member is finished
when their swipe count has reached `MOVIES_PER_ROUND`, and
`all_finished = (finished_members == total_members) and total_members > 0`. -/
def check_all_members_finished (db : DB) (g : Nat) : CompletionStatus :=
  let actives := activeMembers db g
  let total := actives.length
  if total = 0 then
    ⟨false, 0, 0, MOVIES_PER_ROUND⟩
  else
    let finished :=
      (actives.filter (fun r => decide (MOVIES_PER_ROUND ≤ swipeCountFor db g r.user))).length
    ⟨decide (finished = total) && decide (0 < total), total, finished, MOVIES_PER_ROUND⟩

/-- `cache.get(f"group_deck_<id>")` on the deck cache. -/
def cacheGet (db : DB) (g : Nat) : Option (List Nat) :=
  (db.deckCache.find? (fun p => p.1 == g)).map (·.2)

/-- `cache.set(f"group_deck_<id>", deck, CACHE_TIMEOUT)`. -/
def cacheSet (db : DB) (g : Nat) (l : List Nat) : DB :=
  { db with deckCache := (g, l) :: db.deckCache.filter (fun p => p.1 != g) }

/-- `RecommendationService.invalidate_deck_cache` (services.py lines 490-496). -/
def invalidate_deck_cache (db : DB) (g : Nat) : DB :=
  { db with deckCache := db.deckCache.filter (fun p => p.1 != g) }

/-- Movie ids already swiped by any member of the group, `GroupSwipe` table
(services.py lines 112-116, PRIVATE branch). -/
def groupSwipedIds (db : DB) (g : Nat) : List Nat :=
  (db.swipes.filter (fun r => r.gid == g)).map (·.movie)

/-- Movie ids any active member has interacted with anywhere, `Interaction` table
(services.py lines 84-94, COMMUNITY branch). -/
def communitySwipedIds (db : DB) (g : Nat) : List Nat :=
  let userIds := (activeMembers db g).map (·.user)
  (db.interactions.filter (fun i => userIds.contains i.user)).map (·.movie)

/-- Result of the deck service: possibly updated cache plus the returned deck. -/
structure DeckOut where
  db : DB
  deck : List Nat
deriving DecidableEq, Repr

/-- `RecommendationService.get_group_deck` (services.py lines 26-124).
`candidates` is the movie-id list produced by the TMDB catalog gateway for this
request (genre discovery or the popular-movies fallback; network input, so an
oracle here — the PRIVATE sub-branches lines 102-109 differ only in which TMDB
query produces it). A cached entry is used only when non-empty (`if cached_deck:`
is falsy on an empty list); otherwise the candidates are filtered against the
already-swiped ids — the GroupSwipe table for PRIVATE groups, the members'
Interaction rows for COMMUNITY groups — the full filtered list is cached, and a
`limit`-prefix is returned. -/
def get_group_deck (db : DB) (s : SessionRow) (limit : Nat) (candidates : List Nat) : DeckOut :=
  match cacheGet db s.gid with
  | some (x :: xs) => ⟨db, (x :: xs).take limit⟩
  | _ =>
    let swiped :=
      if s.kind = Kind.COMMUNITY then communitySwipedIds db s.gid else groupSwipedIds db s.gid
    let filtered := candidates.filter (fun m => !(swiped.contains m))
    ⟨cacheSet db s.gid filtered, filtered.take limit⟩

/-- `RecommendationService.clear_group_swipes` (services.py lines 822-836):
delete all the group's swipe rows and invalidate its deck cache. -/
def clear_group_swipes (db : DB) (g : Nat) : DB × Nat :=
  let n := (db.swipes.filter (fun r => r.gid == g)).length
  let db1 := { db with swipes := db.swipes.filter (fun r => r.gid != g) }
  (invalidate_deck_cache db1 g, n)

/-! ## Group views (views_group.py, views.py) -/

/-- Shared tail of the PRIVATE swipe_like path (views_group.py lines 724-752):
invalidate the group's deck cache, then run `check_all_members_finished` on the
updated state and broadcast `all_members_finished` whenever it reports
`all_finished` — the source has no only-on-transition guard around this
broadcast. `evs` are the events already emitted earlier in the call. -/
def like_finish (db : DB) (s : SessionRow) (st : Nat) (is_match : Bool)
    (match_data : Option Nat) (evs : List Event) : Out :=
  let db2 := invalidate_deck_cache db s.gid
  let comp := check_all_members_finished db2 s.gid
  let evs2 := if comp.all_finished then evs ++ [Event.all_members_finished s.gid] else evs
  ⟨db2, evs2, Resp.like st true is_match match_data false⟩

/-- Match detection part of swipe_like (views_group.py lines 626-725), run after
the GroupSwipe upsert on the updated state: `check_group_match`, then
`GroupMatch.objects.get_or_create` under the (group, movie) uniqueness guard, and
`_broadcast_match_event` only when `created` is true. `match_data` in the
response is built whenever `is_match` holds, whether or not the row was freshly
created; it is abbreviated to the movie id here. -/
def swipe_like_tail (db : DB) (s : SessionRow) (m st : Nat) : Out :=
  if check_group_match db s.gid m then
    match db.matchRows.find? (matchKeyMatch s.gid m) with
    | some _ => like_finish db s st true (some m) []
    | none =>
      like_finish { db with matchRows := ⟨s.gid, m⟩ :: db.matchRows } s st true (some m)
        [Event.match_found s.gid m]
  else like_finish db s st false none []

/-- `swipe_like` (views_group.py lines 476-762). 404 when no active session has
the code; 403 when the caller is not an active member (no state change). For
COMMUNITY sessions the Interaction row is upserted to LIKE and the call returns
with `is_match=False` — no match detection, no cache eviction, no completion
check. For PRIVATE sessions: an existing LIKE row returns early with
`is_match=False`, `match_data=None` and no writes; otherwise the row is
updated (200) or created (201) and `swipe_like_tail` runs. The `tmdb_id`-missing
400 branch is not modelled (the movie argument is always supplied). -/
def swipe_like (db : DB) (g u m : Nat) : Out :=
  match findSession db g with
  | none => ⟨db, [], Resp.notFound⟩
  | some s =>
    if !(isActiveMember db s.gid u) then ⟨db, [], Resp.forbidden⟩
    else if s.kind = Kind.COMMUNITY then
      match findInteraction db u m with
      | some _ =>
        ⟨{ db with interactions := update_interaction_status u m IStatus.LIKE db.interactions },
          [], Resp.interactionLike 200 false none⟩
      | none =>
        ⟨{ db with interactions := ⟨u, m, IStatus.LIKE⟩ :: db.interactions },
          [], Resp.interactionLike 201 false none⟩
    else
      match findSwipe db s.gid u m with
      | some r =>
        if r.action = Action.LIKE then
          ⟨db, [], Resp.like 200 true false none true⟩
        else
          swipe_like_tail
            { db with swipes := update_swipe_action s.gid u m Action.LIKE db.swipes } s m 200
      | none =>
        swipe_like_tail { db with swipes := ⟨s.gid, u, m, Action.LIKE⟩ :: db.swipes } s m 201

/-- Shared tail of the PRIVATE swipe_dislike path (views_group.py lines 906-931):
invalidate the deck cache, then broadcast `all_members_finished` whenever
`check_all_members_finished` reports `all_finished` (again with no
only-on-transition guard). Dislikes never touch the GroupMatch table. -/
def dislike_finish (db : DB) (s : SessionRow) (st : Nat) : Out :=
  let db2 := invalidate_deck_cache db s.gid
  let comp := check_all_members_finished db2 s.gid
  let evs := if comp.all_finished then [Event.all_members_finished s.gid] else []
  ⟨db2, evs, Resp.dislike st true false⟩

/-- `swipe_dislike` (views_group.py lines 765-943). Same session/member guards as
swipe_like. COMMUNITY sessions upsert the Interaction row to DISLIKE and return
(no completion check). PRIVATE sessions: an existing DISLIKE row returns early
with no writes; otherwise the row is updated (200) or created (201) and
`dislike_finish` runs. -/
def swipe_dislike (db : DB) (g u m : Nat) : Out :=
  match findSession db g with
  | none => ⟨db, [], Resp.notFound⟩
  | some s =>
    if !(isActiveMember db s.gid u) then ⟨db, [], Resp.forbidden⟩
    else if s.kind = Kind.COMMUNITY then
      match findInteraction db u m with
      | some _ =>
        ⟨{ db with interactions := update_interaction_status u m IStatus.DISLIKE db.interactions },
          [], Resp.interactionDislike 200⟩
      | none =>
        ⟨{ db with interactions := ⟨u, m, IStatus.DISLIKE⟩ :: db.interactions },
          [], Resp.interactionDislike 201⟩
    else
      match findSwipe db s.gid u m with
      | some r =>
        if r.action = Action.DISLIKE then
          ⟨db, [], Resp.dislike 200 true true⟩
        else
          dislike_finish
            { db with swipes := update_swipe_action s.gid u m Action.DISLIKE db.swipes } s 200
      | none =>
        dislike_finish { db with swipes := ⟨s.gid, u, m, Action.DISLIKE⟩ :: db.swipes } s 201

/-- `get_group_deck` view (views_group.py lines 382-473): session and membership
guards, the `limit` clamp `min(max(limit, 1), 100)`, then the deck service. -/
def get_group_deck_view (db : DB) (g u limit : Nat) (candidates : List Nat) : Out :=
  match findSession db g with
  | none => ⟨db, [], Resp.notFound⟩
  | some s =>
    if !(isActiveMember db s.gid u) then ⟨db, [], Resp.forbidden⟩
    else
      let d := get_group_deck db s (min (max limit 1) 100) candidates
      ⟨d.db, [], Resp.deck d.deck⟩

/-- `clear_group_swipes` view (views_group.py lines 1250-1284): session and
membership guards, then the service call. -/
def clear_group_swipes_view (db : DB) (g u : Nat) : Out :=
  match findSession db g with
  | none => ⟨db, [], Resp.notFound⟩
  | some s =>
    if !(isActiveMember db s.gid u) then ⟨db, [], Resp.forbidden⟩
    else
      let p := clear_group_swipes db s.gid
      ⟨p.1, [], Resp.cleared p.2⟩

/-- `create_group` (views.py lines 658-698): inside one `transaction.atomic`
block, generate a fresh unique code, create the GroupSession, and insert the
creator as a CREATOR member (`is_active` defaults to true). The auto-enroll
branch of `GroupSession.save` (models.py lines 152-171) never runs on creation,
because the UUID primary key is populated from its field default before `save`
is called, so its `is_new = self.pk is None` test is always false; the explicit
insert here is the only member row written. -/
def create_group (db : DB) (u : Nat) : Out :=
  let gid := db.nextId
  let s : SessionRow :=
    { gid := gid, creator := u, is_active := true, is_public := false,
      kind := Kind.PRIVATE, genre_filter := none }
  ⟨{ db with sessions := s :: db.sessions,
             members := ⟨gid, u, Role.CREATOR, true⟩ :: db.members,
             nextId := db.nextId + 1 },
    [], Resp.created gid⟩

/-- Reactivation `existing_member.is_active = True; save()` of the first member
row matching (group, user). -/
def reactivate_member (g u : Nat) : List MemberRow → List MemberRow
  | [] => []
  | r :: rs =>
    if r.gid == g && r.user == u then { r with is_active := true } :: rs
    else r :: reactivate_member g u rs

/-- `join_group` (views.py lines 797-888): look up the active session by code;
an existing active membership is a no-op, an inactive one is reactivated, and a
brand-new member row is created with the MEMBER role. -/
def join_group (db : DB) (g u : Nat) : Out :=
  match findSession db g with
  | none => ⟨db, [], Resp.notFound⟩
  | some s =>
    match db.members.find? (fun r => r.gid == s.gid && r.user == u) with
    | some r =>
      if r.is_active then ⟨db, [], Resp.joinedOk s.gid⟩
      else ⟨{ db with members := reactivate_member s.gid u db.members }, [], Resp.joinedOk s.gid⟩
    | none =>
      ⟨{ db with members := ⟨s.gid, u, Role.MEMBER, true⟩ :: db.members },
        [], Resp.joinedOk s.gid⟩

/-- Member rows of a group regardless of `is_active`
(the `Count("members")` annotation of views_group.py lines 1035-1043). -/
def memberRowCount (db : DB) (g : Nat) : Nat :=
  (db.members.filter (fun r => r.gid == g)).length

/-- `join_or_create_community_group` (views_group.py lines 1008-1100): find the
newest active public session with the requested genre and fewer than 10 member
rows (the sessions list is newest-first, so `find?` picks the newest). If the
caller already has a member row — active or not — nothing is written; otherwise
a MEMBER row is created. When no such session exists a new public session is
created and, since the auto-enroll branch of `GroupSession.save` never runs (see
`create_group`), no member row at all is written for it. The new session's
`kind` is modelled from the spec as COMMUNITY (the field is absent from the
checked-in models.py; the source passes `is_public=True, genre_filter=...`). -/
def join_or_create_community_group (db : DB) (genre u : Nat) : Out :=
  match db.sessions.find? (fun s =>
      s.is_public && s.is_active && decide (s.genre_filter = some genre) &&
      decide (memberRowCount db s.gid < 10)) with
  | some s =>
    match db.members.find? (fun r => r.gid == s.gid && r.user == u) with
    | some _ => ⟨db, [], Resp.communityAlready s.gid⟩
    | none =>
      ⟨{ db with members := ⟨s.gid, u, Role.MEMBER, true⟩ :: db.members },
        [], Resp.communityJoined s.gid⟩
  | none =>
    let gid := db.nextId
    let s : SessionRow :=
      { gid := gid, creator := u, is_active := true, is_public := true,
        kind := Kind.COMMUNITY, genre_filter := some genre }
    ⟨{ db with sessions := s :: db.sessions, nextId := db.nextId + 1 },
      [], Resp.communityCreated gid⟩

/-! ## WebSocket consumers (consumers.py) -/

/-- Outcome of a WebSocket connect: closed with a close code, or accepted and
subscribed to the room. -/
inductive ConnOut
  | closed (code : Nat)
  | accepted
deriving DecidableEq, Repr

/-- `MatchConsumer.verify_group_membership` (consumers.py lines 483-501): the
GroupMember query promised by the docstring is commented out in the source and
the function returns True unconditionally. -/
def match_verify_group_membership (_db : DB) (_g _u : Nat) : Bool :=
  true

/-- `ChatConsumer.verify_group_membership` (consumers.py lines 254-271):
an active GroupMember row joined through the session with this code. -/
def chat_verify_group_membership (db : DB) (g u : Nat) : Bool :=
  db.members.any (fun r => r.gid == g && r.user == u && r.is_active)

/-- `MatchConsumer.connect` (consumers.py lines 320-373): close 4001 when the
scope user is missing or unauthenticated, close 4003 when the membership check
fails, else join the `match_<code>` room and accept. -/
def match_consumer_connect (db : DB) (g u : Nat) (authenticated : Bool) : ConnOut :=
  if !authenticated then ConnOut.closed 4001
  else if !(match_verify_group_membership db g u) then ConnOut.closed 4003
  else ConnOut.accepted

/-- `ChatConsumer.connect` (consumers.py lines 21-104): close 4001 when the scope
user is missing or unauthenticated (the source tests this three times with the
same outcome), close 4003 when the membership check fails, else join the
`chat_<code>` room and accept. -/
def chat_consumer_connect (db : DB) (g u : Nat) (authenticated : Bool) : ConnOut :=
  if !authenticated then ConnOut.closed 4001
  else if !(chat_verify_group_membership db g u) then ConnOut.closed 4003
  else ConnOut.accepted

/-! ## Traces of the group subsystem -/

/-- One client request against the subsystem. `cacheExpire` models the
time-to-live expiry of a deck-cache entry (services.py CACHE_TIMEOUT); the
`candidates` argument of `getDeck` is the catalog-gateway response for that
request. -/
inductive Op
  | createGroup (user : Nat)
  | joinGroup (code user : Nat)
  | joinCommunity (genre user : Nat)
  | swipeLike (code user movie : Nat)
  | swipeDislike (code user movie : Nat)
  | getDeck (code user limit : Nat) (candidates : List Nat)
  | clearSwipes (code user : Nat)
  | cacheExpire (gid : Nat)
deriving DecidableEq, Repr

/-- Serialization of one request: each view runs inside its own
`transaction.atomic`, so a concurrent history is an arbitrary interleaving of
these atomic steps. -/
def step (db : DB) : Op → Out
  | .createGroup u => create_group db u
  | .joinGroup g u => join_group db g u
  | .joinCommunity genre u => join_or_create_community_group db genre u
  | .swipeLike g u m => swipe_like db g u m
  | .swipeDislike g u m => swipe_dislike db g u m
  | .getDeck g u limit cand => get_group_deck_view db g u limit cand
  | .clearSwipes g u => clear_group_swipes_view db g u
  | .cacheExpire g => ⟨invalidate_deck_cache db g, [], Resp.cleared 0⟩

/-- Run a request sequence, collecting the broadcast events in order. -/
def run (db : DB) : List Op → DB × List Event
  | [] => (db, [])
  | op :: ops =>
    let o := step db op
    let r := run o.db ops
    (r.1, o.events ++ r.2)

/-- The empty deployment state. -/
def initDB : DB :=
  ⟨[], [], [], [], [], [], 0⟩

/-- Database state after a request sequence from the empty state. -/
def runDB (ops : List Op) : DB :=
  (run initDB ops).1

/-- Events broadcast during a request sequence from the empty state. -/
def runEvents (ops : List Op) : List Event :=
  (run initDB ops).2

/-- Number of `match_found` broadcasts for (group, movie) in an event list. -/
def matchFoundCount (evs : List Event) (g m : Nat) : Nat :=
  evs.countP (fun e => decide (e = Event.match_found g m))

/-- Uniqueness invariant of the GroupSwipe table: the unique constraint
`uniq_group_user_movie_swipe` guarantees at most one row per
(group, user, movie). -/
def SwipesUnique (db : DB) : Prop :=
  (db.swipes.map (fun r => (r.gid, r.user, r.movie))).Nodup

/-- Number of distinct users with a current LIKE swipe on (group, movie). -/
def distinctLikeUsers (db : DB) (g m : Nat) : Nat :=
  (((db.swipes.filter
      (fun r => r.gid == g && r.movie == m && decide (r.action = Action.LIKE))).map
        (·.user)).dedup).length

/-! ## Concrete states and request sequences used as test vectors -/

/-- One group (gid 0) whose only active member is user 1; user 2 left the group
(`is_active = false`, the leave/rejoin state the data model provides) after
swiping LIKE on movie 550, which user 1 also liked. -/
def dbOneActiveTwoLikes : DB :=
  ⟨[⟨0, 1, true, false, Kind.PRIVATE, none⟩],
   [⟨0, 1, Role.CREATOR, true⟩, ⟨0, 2, Role.MEMBER, false⟩],
   [⟨0, 1, 550, Action.LIKE⟩, ⟨0, 2, 550, Action.LIKE⟩],
   [], [], [], 1⟩

/-- One group (gid 0) with the single member user 1; user 2 is authenticated but
is not a member of the group. -/
def dbNonMember : DB :=
  ⟨[⟨0, 1, true, false, Kind.PRIVATE, none⟩],
   [⟨0, 1, Role.CREATOR, true⟩],
   [], [], [], [], 1⟩

/-- One single-member group where user 1 already liked movie 550, the consensus
condition holds (1 like, 1 active member) and the GroupMatch row for
(0, 550) already exists. -/
def dbAlreadyLiked : DB :=
  ⟨[⟨0, 1, true, false, Kind.PRIVATE, none⟩],
   [⟨0, 1, Role.CREATOR, true⟩],
   [⟨0, 1, 550, Action.LIKE⟩],
   [⟨0, 550⟩], [], [], 1⟩

/-- A fresh two-member private group reached by a request trace. -/
def twoMemberOps : List Op :=
  [Op.createGroup 1, Op.joinGroup 0 2]

/-- A fresh single-member private group reached by a request trace. -/
def dbFreshGroup : DB :=
  runDB [Op.createGroup 1]

/-- The movie list carried by a deck response (empty for error responses). -/
def deckOf (o : Out) : List Nat :=
  match o.resp with
  | Resp.deck l => l
  | _ => []

/-- State invariant maintained by every request from the empty deployment state.
`cacheOk` is the deck-exclusion invariant: every cached deck entry is free of
movies that have a GroupSwipe row in its group. `commNoSwipes` records that the
GroupSwipe table is only ever written through the PRIVATE branch of the swipe
endpoints, so COMMUNITY sessions own no swipe rows. The remaining fields say
that session identifiers are pairwise distinct and that `nextId` is fresh. -/
structure Inv (db : DB) : Prop where
  cacheOk : ∀ p ∈ db.deckCache, ∀ m ∈ p.2, hasSwipe db p.1 m = false
  commNoSwipes : ∀ s ∈ db.sessions, s.kind = Kind.COMMUNITY → ∀ r ∈ db.swipes, r.gid ≠ s.gid
  gidsNodup : (db.sessions.map (fun s => s.gid)).Nodup
  gidsLt : ∀ s ∈ db.sessions, s.gid < db.nextId
  swipesLt : ∀ r ∈ db.swipes, r.gid < db.nextId

/-! ## Basic list lemmas -/

theorem filter_eq_nil_of_find?_none {α : Type} {p : α → Bool} {l : List α}
    (h : l.find? p = none) : l.filter p = [] := by
  induction l with
  | nil => rfl
  | cons a as ih =>
    rw [List.find?_cons] at h
    split at h
    · simp at h
    · rename_i hp
      rw [List.filter_cons]
      simp only [hp, if_false]
      exact ih h

/-! ## Frame lemmas for the endpoint transitions -/

theorem invalidate_deck_cache_matchRows (db : DB) (g : Nat) :
    (invalidate_deck_cache db g).matchRows = db.matchRows := rfl

theorem dislike_finish_matchRows (db : DB) (s : SessionRow) (st : Nat) :
    (dislike_finish db s st).db.matchRows = db.matchRows := rfl

/-- swipe_dislike never touches the GroupMatch table, in any of its branches. -/
theorem swipe_dislike_keeps_matchRows (db : DB) (g u m : Nat) :
    (swipe_dislike db g u m).db.matchRows = db.matchRows := by
  unfold swipe_dislike dislike_finish invalidate_deck_cache
  repeat' split <;> try rfl

/-- swipe_dislike broadcasts no `match_found` event, in any of its branches. -/
theorem swipe_dislike_no_matchFound (db : DB) (g u m gm mm : Nat) :
    matchFoundCount (swipe_dislike db g u m).events gm mm = 0 := by
  unfold swipe_dislike dislike_finish
  repeat' split
  all_goals simp [matchFoundCount]

theorem findSession_eq (db : DB) (g : Nat) (s : SessionRow)
    (h : findSession db g = some s) :
    s.gid = g ∧ s.is_active = true ∧ s ∈ db.sessions := by
  unfold findSession at h
  have hm := List.mem_of_find?_eq_some h
  have hp := List.find?_some h
  simp only [Bool.and_eq_true, beq_iff_eq] at hp
  exact ⟨hp.1, hp.2, hm⟩

theorem hasMatchRow_eq_false_of_find?_none (db : DB) (g m : Nat)
    (h : db.matchRows.find? (matchKeyMatch g m) = none) :
    hasMatchRow db g m = false := by
  unfold hasMatchRow
  rw [List.any_eq_false]
  intro r hr
  exact List.find?_eq_none.mp h r hr

theorem matchRowCount_eq_zero_of_not_hasMatchRow (db : DB) (g m : Nat)
    (h : hasMatchRow db g m = false) : matchRowCount db g m = 0 := by
  unfold hasMatchRow at h
  rw [List.any_eq_false] at h
  unfold matchRowCount
  rw [List.filter_eq_nil_iff.mpr h]
  rfl

/-- Central case analysis of swipe_like_tail: either the call leaves the
GroupMatch table alone and broadcasts no `match_found`, or the uniqueness-guarded
get_or_create found no row for (group, movie), inserted exactly one, and exactly
one `match_found` broadcast for that pair was emitted. -/
theorem swipe_like_tail_spec (db : DB) (s : SessionRow) (m st : Nat) :
    ((swipe_like_tail db s m st).db.matchRows = db.matchRows ∧
      ∀ gm mm : Nat, matchFoundCount (swipe_like_tail db s m st).events gm mm = 0)
    ∨ (db.matchRows.find? (matchKeyMatch s.gid m) = none ∧
      (swipe_like_tail db s m st).db.matchRows = MatchRow.mk s.gid m :: db.matchRows ∧
      ∀ gm mm : Nat, matchFoundCount (swipe_like_tail db s m st).events gm mm =
        if Event.match_found s.gid m = Event.match_found gm mm then 1 else 0) := by
  unfold swipe_like_tail like_finish
  by_cases hc : check_group_match db s.gid m
  · rw [if_pos hc]
    cases hf : db.matchRows.find? (matchKeyMatch s.gid m) with
    | some r =>
      left
      refine ⟨rfl, fun gm mm => ?_⟩
      simp only []
      split <;> simp [matchFoundCount]
    | none =>
      right
      refine ⟨rfl, rfl, fun gm mm => ?_⟩
      simp only []
      by_cases he : Event.match_found s.gid m = Event.match_found gm mm
      · rw [if_pos he]
        split <;> simp [matchFoundCount, he]
      · rw [if_neg he]
        split <;> simp [matchFoundCount, he]
  · rw [if_neg hc]
    left
    refine ⟨rfl, fun gm mm => ?_⟩
    simp only []
    split <;> simp [matchFoundCount]

/-- Central case analysis of swipe_like: either the GroupMatch table is unchanged
and no `match_found` is broadcast, or no GroupMatch row for (group, movie)
existed, the call inserted exactly one, and broadcast exactly one `match_found`
for that pair. -/
theorem swipe_like_spec (db : DB) (g u m : Nat) :
    ((swipe_like db g u m).db.matchRows = db.matchRows ∧
      ∀ gm mm : Nat, matchFoundCount (swipe_like db g u m).events gm mm = 0)
    ∨ (hasMatchRow db g m = false ∧
      (swipe_like db g u m).db.matchRows = MatchRow.mk g m :: db.matchRows ∧
      ∀ gm mm : Nat, matchFoundCount (swipe_like db g u m).events gm mm =
        if Event.match_found g m = Event.match_found gm mm then 1 else 0) := by
  unfold swipe_like
  split
  · exact Or.inl ⟨rfl, fun gm mm => rfl⟩
  · rename_i s hfs
    obtain ⟨hg, -, -⟩ := findSession_eq db g s hfs
    subst hg
    split
    · exact Or.inl ⟨rfl, fun gm mm => rfl⟩
    · split
      · split
        · exact Or.inl ⟨rfl, fun gm mm => rfl⟩
        · exact Or.inl ⟨rfl, fun gm mm => rfl⟩
      · split
        · rename_i r hsw
          split
          · exact Or.inl ⟨rfl, fun gm mm => rfl⟩
          · rcases swipe_like_tail_spec
                { db with swipes := update_swipe_action s.gid u m Action.LIKE db.swipes } s m 200 with
              ⟨h1, h2⟩ | ⟨h0, h1, h2⟩
            · exact Or.inl ⟨h1, h2⟩
            · exact Or.inr ⟨hasMatchRow_eq_false_of_find?_none db s.gid m h0, h1, h2⟩
        · rcases swipe_like_tail_spec
              { db with swipes := SwipeRow.mk s.gid u m Action.LIKE :: db.swipes } s m 201 with
            ⟨h1, h2⟩ | ⟨h0, h1, h2⟩
          · exact Or.inl ⟨h1, h2⟩
          · exact Or.inr ⟨hasMatchRow_eq_false_of_find?_none db s.gid m h0, h1, h2⟩

theorem create_group_frame (db : DB) (u : Nat) :
    (create_group db u).db.matchRows = db.matchRows ∧ (create_group db u).events = [] :=
  ⟨rfl, rfl⟩

theorem join_group_frame (db : DB) (g u : Nat) :
    (join_group db g u).db.matchRows = db.matchRows ∧ (join_group db g u).events = [] := by
  unfold join_group
  repeat' split
  all_goals exact ⟨rfl, rfl⟩

theorem join_community_frame (db : DB) (genre u : Nat) :
    (join_or_create_community_group db genre u).db.matchRows = db.matchRows ∧
      (join_or_create_community_group db genre u).events = [] := by
  unfold join_or_create_community_group
  repeat' split
  all_goals exact ⟨rfl, rfl⟩

theorem get_group_deck_view_frame (db : DB) (g u limit : Nat) (cand : List Nat) :
    (get_group_deck_view db g u limit cand).db.matchRows = db.matchRows ∧
      (get_group_deck_view db g u limit cand).events = [] := by
  unfold get_group_deck_view get_group_deck cacheSet
  repeat' split
  all_goals exact ⟨rfl, rfl⟩

theorem clear_group_swipes_view_frame (db : DB) (g u : Nat) :
    (clear_group_swipes_view db g u).db.matchRows = db.matchRows ∧
      (clear_group_swipes_view db g u).events = [] := by
  unfold clear_group_swipes_view clear_group_swipes invalidate_deck_cache
  repeat' split
  all_goals exact ⟨rfl, rfl⟩

theorem hasMatchRow_of_matchRows_eq (db db2 : DB) (gm mm : Nat)
    (he : db2.matchRows = db.matchRows) (h : hasMatchRow db gm mm = true) :
    hasMatchRow db2 gm mm = true := by
  unfold hasMatchRow
  rw [he]
  exact h

theorem matchRowCount_of_matchRows_eq (db db2 : DB) (gm mm : Nat)
    (he : db2.matchRows = db.matchRows) :
    matchRowCount db2 gm mm = matchRowCount db gm mm := by
  unfold matchRowCount
  rw [he]

/-- One step broadcasts at most one `match_found` per (group, movie). -/
theorem step_matchFound_le (db : DB) (op : Op) (gm mm : Nat) :
    matchFoundCount (step db op).events gm mm ≤ 1 := by
  cases op with
  | createGroup u => simp [step, (create_group_frame db u).2, matchFoundCount]
  | joinGroup g u => simp [step, (join_group_frame db g u).2, matchFoundCount]
  | joinCommunity genre u => simp [step, (join_community_frame db genre u).2, matchFoundCount]
  | swipeLike g u m =>
    rcases swipe_like_spec db g u m with ⟨-, h2⟩ | ⟨-, -, h2⟩
    · rw [step, h2]
      exact Nat.zero_le 1
    · rw [step, h2]
      split <;> simp
  | swipeDislike g u m => rw [step, swipe_dislike_no_matchFound]; exact Nat.zero_le 1
  | getDeck g u limit cand => simp [step, (get_group_deck_view_frame db g u limit cand).2, matchFoundCount]
  | clearSwipes g u => simp [step, (clear_group_swipes_view_frame db g u).2, matchFoundCount]
  | cacheExpire g => simp [step, matchFoundCount]

/-- A step taken while the GroupMatch row for (group, movie) already exists
broadcasts no `match_found` for that pair: it always observes
`created = false`. -/
theorem step_no_emit (db : DB) (op : Op) (gm mm : Nat)
    (h : hasMatchRow db gm mm = true) :
    matchFoundCount (step db op).events gm mm = 0 := by
  cases op with
  | createGroup u => simp [step, (create_group_frame db u).2, matchFoundCount]
  | joinGroup g u => simp [step, (join_group_frame db g u).2, matchFoundCount]
  | joinCommunity genre u => simp [step, (join_community_frame db genre u).2, matchFoundCount]
  | swipeLike g u m =>
    rcases swipe_like_spec db g u m with ⟨-, h2⟩ | ⟨h0, -, h2⟩
    · rw [step, h2]
    · rw [step, h2]
      split
      · rename_i he
        rw [Event.match_found.injEq] at he
        rw [he.1, he.2] at h0
        rw [h0] at h
        exact absurd h (by simp)
      · rfl
  | swipeDislike g u m => rw [step, swipe_dislike_no_matchFound]
  | getDeck g u limit cand => simp [step, (get_group_deck_view_frame db g u limit cand).2, matchFoundCount]
  | clearSwipes g u => simp [step, (clear_group_swipes_view_frame db g u).2, matchFoundCount]
  | cacheExpire g => simp [step, matchFoundCount]

/-- GroupMatch rows are never deleted: once present, (group, movie) stays
present across every step. -/
theorem step_hasRow_mono (db : DB) (op : Op) (gm mm : Nat)
    (h : hasMatchRow db gm mm = true) :
    hasMatchRow (step db op).db gm mm = true := by
  cases op with
  | createGroup u => exact hasMatchRow_of_matchRows_eq db _ gm mm (create_group_frame db u).1 h
  | joinGroup g u => exact hasMatchRow_of_matchRows_eq db _ gm mm (join_group_frame db g u).1 h
  | joinCommunity genre u =>
    exact hasMatchRow_of_matchRows_eq db _ gm mm (join_community_frame db genre u).1 h
  | swipeLike g u m =>
    rcases swipe_like_spec db g u m with ⟨h1, -⟩ | ⟨-, h1, -⟩
    · exact hasMatchRow_of_matchRows_eq db _ gm mm h1 h
    · show hasMatchRow (swipe_like db g u m).db gm mm = true
      unfold hasMatchRow
      rw [h1, List.any_cons]
      unfold hasMatchRow at h
      rw [h]
      simp
  | swipeDislike g u m =>
    exact hasMatchRow_of_matchRows_eq db _ gm mm (swipe_dislike_keeps_matchRows db g u m) h
  | getDeck g u limit cand =>
    exact hasMatchRow_of_matchRows_eq db _ gm mm (get_group_deck_view_frame db g u limit cand).1 h
  | clearSwipes g u =>
    exact hasMatchRow_of_matchRows_eq db _ gm mm (clear_group_swipes_view_frame db g u).1 h
  | cacheExpire g => exact h

/-- A step that broadcasts `match_found` for (group, movie) leaves the GroupMatch
row for that pair in place. -/
theorem step_emit_hasRow (db : DB) (op : Op) (gm mm : Nat)
    (h : 0 < matchFoundCount (step db op).events gm mm) :
    hasMatchRow (step db op).db gm mm = true := by
  cases op with
  | createGroup u => rw [step, (create_group_frame db u).2] at h; exact absurd h (by simp [matchFoundCount])
  | joinGroup g u => rw [step, (join_group_frame db g u).2] at h; exact absurd h (by simp [matchFoundCount])
  | joinCommunity genre u =>
    rw [step, (join_community_frame db genre u).2] at h
    exact absurd h (by simp [matchFoundCount])
  | swipeLike g u m =>
    rcases swipe_like_spec db g u m with ⟨-, h2⟩ | ⟨-, h1, h2⟩
    · rw [step, h2] at h
      exact absurd h (by simp)
    · rw [step, h2] at h
      split at h
      · rename_i he
        rw [Event.match_found.injEq] at he
        show hasMatchRow (swipe_like db g u m).db gm mm = true
        unfold hasMatchRow
        rw [h1, List.any_cons]
        unfold matchKeyMatch
        simp [he.1, he.2]
      · exact absurd h (by simp)
  | swipeDislike g u m => rw [step, swipe_dislike_no_matchFound] at h; exact absurd h (by simp)
  | getDeck g u limit cand =>
    rw [step, (get_group_deck_view_frame db g u limit cand).2] at h
    exact absurd h (by simp [matchFoundCount])
  | clearSwipes g u =>
    rw [step, (clear_group_swipes_view_frame db g u).2] at h
    exact absurd h (by simp [matchFoundCount])
  | cacheExpire g => exact absurd h (by simp [step, matchFoundCount])

/-- The uniqueness guard keeps at most one GroupMatch row per (group, movie)
across every step. -/
theorem step_rowCount (db : DB) (op : Op) (gm mm : Nat)
    (h : matchRowCount db gm mm ≤ 1) :
    matchRowCount (step db op).db gm mm ≤ 1 := by
  cases op with
  | createGroup u =>
    show matchRowCount (create_group db u).db gm mm ≤ 1
    rw [matchRowCount_of_matchRows_eq db _ gm mm (create_group_frame db u).1]; exact h
  | joinGroup g u =>
    show matchRowCount (join_group db g u).db gm mm ≤ 1
    rw [matchRowCount_of_matchRows_eq db _ gm mm (join_group_frame db g u).1]; exact h
  | joinCommunity genre u =>
    show matchRowCount (join_or_create_community_group db genre u).db gm mm ≤ 1
    rw [matchRowCount_of_matchRows_eq db _ gm mm (join_community_frame db genre u).1]; exact h
  | swipeLike g u m =>
    rcases swipe_like_spec db g u m with ⟨h1, -⟩ | ⟨h0, h1, -⟩
    · show matchRowCount (swipe_like db g u m).db gm mm ≤ 1
      rw [matchRowCount_of_matchRows_eq db _ gm mm h1]; exact h
    · show matchRowCount (swipe_like db g u m).db gm mm ≤ 1
      unfold matchRowCount
      rw [h1, List.filter_cons]
      split
      · rename_i hk
        unfold matchKeyMatch at hk
        simp only [Bool.and_eq_true, beq_iff_eq] at hk
        have h0c : matchRowCount db gm mm = 0 := by
          apply matchRowCount_eq_zero_of_not_hasMatchRow
          rw [← hk.1, ← hk.2]
          exact h0
        unfold matchRowCount at h0c
        rw [List.length_cons, h0c]
      · exact le_trans (Nat.le_of_eq rfl) h
  | swipeDislike g u m =>
    show matchRowCount (swipe_dislike db g u m).db gm mm ≤ 1
    rw [matchRowCount_of_matchRows_eq db _ gm mm (swipe_dislike_keeps_matchRows db g u m)]; exact h
  | getDeck g u limit cand =>
    show matchRowCount (get_group_deck_view db g u limit cand).db gm mm ≤ 1
    rw [matchRowCount_of_matchRows_eq db _ gm mm (get_group_deck_view_frame db g u limit cand).1]
    exact h
  | clearSwipes g u =>
    show matchRowCount (clear_group_swipes_view db g u).db gm mm ≤ 1
    rw [matchRowCount_of_matchRows_eq db _ gm mm (clear_group_swipes_view_frame db g u).1]; exact h
  | cacheExpire g => exact h

/-- Once the GroupMatch row for (group, movie) exists, no later request in a run
ever broadcasts `match_found` for that pair again. -/
theorem run_matchFound_zero (ops : List Op) (db : DB) (gm mm : Nat)
    (h : hasMatchRow db gm mm = true) :
    matchFoundCount (run db ops).2 gm mm = 0 := by
  induction ops generalizing db with
  | nil => rfl
  | cons op ops ih =>
    show matchFoundCount ((step db op).events ++ (run (step db op).db ops).2) gm mm = 0
    unfold matchFoundCount
    rw [List.countP_append]
    have h1 := step_no_emit db op gm mm h
    have h2 := ih (step db op).db (step_hasRow_mono db op gm mm h)
    unfold matchFoundCount at h1 h2
    rw [h1, h2]

/-- Any run broadcasts at most one `match_found` per (group, movie). -/
theorem run_matchFound_le (ops : List Op) (db : DB) (gm mm : Nat) :
    matchFoundCount (run db ops).2 gm mm ≤ 1 := by
  induction ops generalizing db with
  | nil => exact Nat.zero_le 1
  | cons op ops ih =>
    show matchFoundCount ((step db op).events ++ (run (step db op).db ops).2) gm mm ≤ 1
    unfold matchFoundCount
    rw [List.countP_append]
    rcases Nat.eq_zero_or_pos (matchFoundCount (step db op).events gm mm) with hz | hp
    · unfold matchFoundCount at hz
      rw [hz, Nat.zero_add]
      exact ih (step db op).db
    · have h2 := run_matchFound_zero ops (step db op).db gm mm (step_emit_hasRow db op gm mm hp)
      unfold matchFoundCount at h2
      rw [h2, Nat.add_zero]
      exact step_matchFound_le db op gm mm

/-- Any run keeps at most one GroupMatch row per (group, movie). -/
theorem run_rowCount_le (ops : List Op) (db : DB) (gm mm : Nat)
    (h : matchRowCount db gm mm ≤ 1) :
    matchRowCount (run db ops).1 gm mm ≤ 1 := by
  induction ops generalizing db with
  | nil => exact h
  | cons op ops ih =>
    show matchRowCount (run (step db op).db ops).1 gm mm ≤ 1
    exact ih (step db op).db (step_rowCount db op gm mm h)

/-! ## Claim theorems -/

/-- C1: for every (group, movie) pair, at most one `match_found` event is ever
broadcast and at most one GroupMatch row ever exists, over every request
sequence (an arbitrary interleaving of the atomic per-swipe transactions, so
sequential and concurrent LIKE histories alike): only the swipe_like call whose
uniqueness-guarded get_or_create actually creates the GroupMatch row
(`created = true`) broadcasts the event, and every later call that computes
`is_match = true` observes `created = false` and does not re-publish. -/
theorem C1_exactly_one_match_event (ops : List Op) (g m : Nat) :
    matchFoundCount (runEvents ops) g m ≤ 1 ∧ matchRowCount (runDB ops) g m ≤ 1 :=
  ⟨run_matchFound_le ops initDB g m,
   run_rowCount_le ops initDB g m (Nat.zero_le 1)⟩

/-- C8: recording a DISLIKE swipe never removes or modifies any GroupMatch row:
in every branch of swipe_dislike — including the overwrite of a prior LIKE on a
movie that already has a GroupMatch — the GroupMatch table is left exactly as it
was, so the set of matches of every group is unchanged. -/
theorem C8_dislike_never_touches_matches (db : DB) (g u m : Nat) :
    (swipe_dislike db g u m).db.matchRows = db.matchRows :=
  swipe_dislike_keeps_matchRows db g u m

/-- C3 (code evaluation at the failing input): user 2 is authenticated but not a
member of group 0. The HTTP swipe endpoints reject with 403 and leave the
database untouched, and the chat room closes with 4003 (distinct from the 4001
authentication code) — but the match room ACCEPTS the non-member, because
`MatchConsumer.verify_group_membership` returns True unconditionally (its real
query is commented out in consumers.py lines 483-501, contradicting the
function's own docstring). -/
theorem C3_match_room_accepts_non_member :
    isActiveMember dbNonMember 0 2 = false
    ∧ swipe_like dbNonMember 0 2 550 = ⟨dbNonMember, [], Resp.forbidden⟩
    ∧ swipe_dislike dbNonMember 0 2 550 = ⟨dbNonMember, [], Resp.forbidden⟩
    ∧ chat_consumer_connect dbNonMember 0 2 true = ConnOut.closed 4003
    ∧ match_consumer_connect dbNonMember 0 2 false = ConnOut.closed 4001
    ∧ match_consumer_connect dbNonMember 0 2 true = ConnOut.accepted := by
  refine ⟨?_, ?_, ?_, ?_, ?_, ?_⟩ <;> decide

/-- Early return of the PRIVATE swipe_like path when the existing row is already
a LIKE (views_group.py 592-606): nothing is written and nothing broadcast. -/
theorem swipe_like_already_like (db : DB) (g u m : Nat) (s : SessionRow)
    (r : SwipeRow) (hs : findSession db g = some s) (hk : s.kind = Kind.PRIVATE)
    (hmem : isActiveMember db s.gid u = true)
    (hr : findSwipe db s.gid u m = some r) (ha : r.action = Action.LIKE) :
    swipe_like db g u m = ⟨db, [], Resp.like 200 true false none true⟩ := by
  unfold swipe_like
  rw [hs]
  simp only [hmem, Bool.not_true, Bool.false_eq_true, if_false]
  rw [if_neg (by rw [hk]; intro hc; exact Kind.noConfusion hc)]
  simp only [hr]
  rw [if_pos ha]

/-- Early return of the PRIVATE swipe_dislike path when the existing row is
already a DISLIKE (views_group.py 876-887): nothing is written and nothing
broadcast. -/
theorem swipe_dislike_already_dislike (db : DB) (g u m : Nat) (s : SessionRow)
    (r : SwipeRow) (hs : findSession db g = some s) (hk : s.kind = Kind.PRIVATE)
    (hmem : isActiveMember db s.gid u = true)
    (hr : findSwipe db s.gid u m = some r) (ha : r.action = Action.DISLIKE) :
    swipe_dislike db g u m = ⟨db, [], Resp.dislike 200 true true⟩ := by
  unfold swipe_dislike
  rw [hs]
  simp only [hmem, Bool.not_true, Bool.false_eq_true, if_false]
  rw [if_neg (by rw [hk]; intro hc; exact Kind.noConfusion hc)]
  simp only [hr]
  rw [if_pos ha]

/-- C10: for a PRIVATE group, when the caller's existing GroupSwipe for the movie
already has action LIKE, swipe_like returns early with success = true,
is_match = false and match_data = none, writing nothing: the whole state,
including swipes, matches, cache and events, is unchanged. -/
theorem C10_already_liked_early_return (db : DB) (g u m : Nat) (s : SessionRow)
    (r : SwipeRow) (hs : findSession db g = some s) (hk : s.kind = Kind.PRIVATE)
    (hmem : isActiveMember db s.gid u = true)
    (hr : findSwipe db s.gid u m = some r) (ha : r.action = Action.LIKE) :
    swipe_like db g u m = ⟨db, [], Resp.like 200 true false none true⟩ :=
  swipe_like_already_like db g u m s r hs hk hmem hr ha

/-- C10 witness: in `dbAlreadyLiked` the consensus condition holds for
(group 0, movie 550) and the GroupMatch row already exists, yet the repeated
LIKE still reports is_match = false with match_data = none and changes
nothing. -/
theorem C10_witness :
    swipe_like dbAlreadyLiked 0 1 550 = ⟨dbAlreadyLiked, [], Resp.like 200 true false none true⟩ :=
  C10_already_liked_early_return dbAlreadyLiked 0 1 550
    ⟨0, 1, true, false, Kind.PRIVATE, none⟩ ⟨0, 1, 550, Action.LIKE⟩
    (by decide) rfl (by decide) (by decide) rfl

/-- C2 counterexample: in `dbOneActiveTwoLikes` the group has one active member
but two current LIKE rows on movie 550 (one from a member who has since been
deactivated), so the like count differs from the active-member count — and
check_group_match still returns true, because the source compares with `>=`,
not equality. -/
theorem C2_counterexample_like_count_exceeds_members :
    check_group_match dbOneActiveTwoLikes 0 550 = true
    ∧ likeCount dbOneActiveTwoLikes 0 550 = 2
    ∧ activeMemberCount dbOneActiveTwoLikes 0 = 1 := by
  refine ⟨?_, ?_, ?_⟩ <;> decide

/-- C9 counterexample: calling the community join-or-create endpoint on the
empty deployment state successfully creates a session (response
`communityCreated 0`) that has zero member rows — its creator is not enrolled,
because `GroupSession.save`'s auto-enroll guard `self.pk is None` is always
false (the UUID primary key is pre-populated by its default) and
`join_or_create_community_group` inserts no member on the create path. -/
theorem C9_counterexample_zero_member_session :
    (join_or_create_community_group initDB 28 7).resp = Resp.communityCreated 0
    ∧ (join_or_create_community_group initDB 28 7).db.sessions =
        [⟨0, 7, true, true, Kind.COMMUNITY, some 28⟩]
    ∧ memberRowCount (join_or_create_community_group initDB 28 7).db 0 = 0 := by
  refine ⟨?_, ?_, ?_⟩ <;> decide

/-- C9 amended: a session created through the create_group endpoint does have
its creator enrolled in the same atomic step, as the unique member of the fresh
session, with the CREATOR role and is_active = true. -/
theorem C9_amended_create_group_enrolls_creator (db : DB) (u : Nat)
    (hfresh : ∀ r ∈ db.members, r.gid < db.nextId) :
    (create_group db u).db.members.filter (fun r => r.gid == db.nextId) =
        [⟨db.nextId, u, Role.CREATOR, true⟩]
    ∧ (create_group db u).db.sessions.head? =
        some ⟨db.nextId, u, true, false, Kind.PRIVATE, none⟩
    ∧ (create_group db u).resp = Resp.created db.nextId := by
  refine ⟨?_, rfl, rfl⟩
  show (MemberRow.mk db.nextId u Role.CREATOR true :: db.members).filter
      (fun r => r.gid == db.nextId) = [⟨db.nextId, u, Role.CREATOR, true⟩]
  rw [List.filter_cons]
  simp only [beq_self_eq_true, if_true]
  have : db.members.filter (fun r => r.gid == db.nextId) = [] := by
    rw [List.filter_eq_nil_iff]
    intro r hr
    simp only [beq_iff_eq]
    exact Nat.ne_of_lt (hfresh r hr)
  rw [this]

/-- C9 amended witness: creating a group from the empty state enrolls user 1 as
the sole CREATOR member of the fresh session 0 in the same step. -/
theorem C9_amended_witness :
    (create_group initDB 1).db.members.filter (fun r => r.gid == initDB.nextId) =
        [⟨initDB.nextId, 1, Role.CREATOR, true⟩]
    ∧ (create_group initDB 1).db.sessions.head? =
        some ⟨initDB.nextId, 1, true, false, Kind.PRIVATE, none⟩
    ∧ (create_group initDB 1).resp = Resp.created initDB.nextId :=
  C9_amended_create_group_enrolls_creator initDB 1 (by intro r hr; cases hr)

/-- When the GroupSwipe rows are unique per (group, user, movie), the row count
for a (group, movie) LIKE filter equals the number of distinct liking users. -/
theorem distinctLikeUsers_eq_likeCount (db : DB) (g m : Nat) (h : SwipesUnique db) :
    distinctLikeUsers db g m = likeCount db g m := by
  unfold distinctLikeUsers likeCount
  unfold SwipesUnique at h
  have hsub : (db.swipes.filter
      (fun r => r.gid == g && r.movie == m && decide (r.action = Action.LIKE))).Sublist
        db.swipes := List.filter_sublist _
  have hkeys : ((db.swipes.filter
      (fun r => r.gid == g && r.movie == m && decide (r.action = Action.LIKE))).map
        (fun r => (r.gid, r.user, r.movie))).Nodup :=
    (hsub.map _).nodup h
  have husers : ((db.swipes.filter
      (fun r => r.gid == g && r.movie == m && decide (r.action = Action.LIKE))).map
        (fun r => r.user)).Nodup := by
    have hmm : ((db.swipes.filter
        (fun r => r.gid == g && r.movie == m && decide (r.action = Action.LIKE))).map
          (fun r => r.user)) =
        (((db.swipes.filter
          (fun r => r.gid == g && r.movie == m && decide (r.action = Action.LIKE))).map
            (fun r => (r.gid, r.user, r.movie))).map (fun t => t.2.1)) := by
      rw [List.map_map]
      rfl
    rw [hmm]
    refine List.Nodup.map_on ?_ hkeys
    intro x hx y hy hxy
    obtain ⟨rx, hrx, hrxe⟩ := List.mem_map.mp hx
    obtain ⟨ry, hry, hrye⟩ := List.mem_map.mp hy
    have hpx := List.of_mem_filter hrx
    have hpy := List.of_mem_filter hry
    simp only [Bool.and_eq_true, beq_iff_eq, decide_eq_true_eq] at hpx hpy
    subst hrxe hrye
    simp only [Prod.mk.injEq]
    exact ⟨hpx.1.1.trans hpy.1.1.symm, hxy, hpx.1.2.trans hpy.1.2.symm⟩
  rw [List.dedup_eq_self.mpr husers, List.length_map]

/-- C2 amended: consensus is declared exactly when the number of distinct users
with a current LIKE swipe on (group, movie) is at least (not exactly equal to)
the number of active members, and that member count is strictly positive; in
particular a group with zero active members never matches. -/
theorem C2_amended_consensus_is_geq (db : DB) (g m : Nat) (h : SwipesUnique db) :
    check_group_match db g m =
      (decide (activeMemberCount db g ≤ distinctLikeUsers db g m) &&
        decide (0 < activeMemberCount db g)) := by
  rw [check_group_match, distinctLikeUsers_eq_likeCount db g m h]

/-- C2 amended witness: the amended consensus condition applied to the concrete
state with one active member and two distinct liking users. -/
theorem C2_amended_witness :
    check_group_match dbOneActiveTwoLikes 0 550 =
      (decide (activeMemberCount dbOneActiveTwoLikes 0 ≤ distinctLikeUsers dbOneActiveTwoLikes 0 550) &&
        decide (0 < activeMemberCount dbOneActiveTwoLikes 0)) :=
  C2_amended_consensus_is_geq dbOneActiveTwoLikes 0 550 (by unfold SwipesUnique; decide)

theorem filter_length_eq_length_iff {α : Type} (p : α → Bool) (l : List α) :
    (l.filter p).length = l.length ↔ ∀ a ∈ l, p a = true := by
  induction l with
  | nil => simp
  | cons x xs ih =>
    rw [List.filter_cons]
    by_cases hx : p x = true
    · simp only [hx, if_true, List.length_cons]
      constructor
      · intro h a ha
        rcases List.mem_cons.mp ha with rfl | ha2
        · exact hx
        · exact (ih.mp (Nat.succ_injective h)) a ha2
      · intro h
        rw [ih.mpr (fun a ha => h a (List.mem_cons_of_mem x ha))]
    · simp only [hx, if_false]
      constructor
      · intro h
        exact absurd h (Nat.ne_of_lt (Nat.lt_succ_of_le (List.length_filter_le p xs)))
      · intro h
        exact absurd (h x (List.mem_cons_self x xs)) hx

/-- C5: check_all_members_finished reports the active-member count, the fixed
quota of `MOVIES_PER_ROUND = 5` movies, `all_finished` holds exactly when the
group is non-empty and every active member's swipe count has reached the quota,
and a group with zero active members yields all_finished = false with zero
member counts. -/
theorem C5_completion_aggregate (db : DB) (g : Nat) :
    (check_all_members_finished db g).total_members = activeMemberCount db g
    ∧ (check_all_members_finished db g).total_movies = MOVIES_PER_ROUND
    ∧ ((check_all_members_finished db g).all_finished = true ↔
        (0 < activeMemberCount db g ∧
          ∀ r ∈ activeMembers db g, MOVIES_PER_ROUND ≤ swipeCountFor db g r.user))
    ∧ (activeMemberCount db g = 0 →
        check_all_members_finished db g = ⟨false, 0, 0, MOVIES_PER_ROUND⟩) := by
  unfold check_all_members_finished activeMemberCount
  by_cases h0 : (activeMembers db g).length = 0
  · rw [if_pos h0]
    refine ⟨h0.symm, rfl, ?_, fun _ => rfl⟩
    simp only [Bool.false_eq_true, false_iff]
    intro hc
    rw [h0] at hc
    exact absurd hc.1 (by simp)
  · rw [if_neg h0]
    refine ⟨rfl, rfl, ?_, fun hz => absurd hz h0⟩
    simp only [Bool.and_eq_true, decide_eq_true_eq]
    constructor
    · intro hc
      refine ⟨hc.2, ?_⟩
      have := (filter_length_eq_length_iff _ (activeMembers db g)).mp hc.1
      intro r hr
      have hp := this r hr
      rw [decide_eq_true_eq] at hp
      exact hp
    · intro hc
      refine ⟨?_, Nat.pos_of_ne_zero h0⟩
      refine (filter_length_eq_length_iff _ (activeMembers db g)).mpr ?_
      intro r hr
      rw [decide_eq_true_eq]
      exact hc.2 r hr

/-- C5 witness: the aggregate evaluated on the one-active-member state. -/
theorem C5_witness :
    (check_all_members_finished dbOneActiveTwoLikes 0).total_members =
        activeMemberCount dbOneActiveTwoLikes 0
    ∧ (check_all_members_finished dbOneActiveTwoLikes 0).total_movies = MOVIES_PER_ROUND
    ∧ ((check_all_members_finished dbOneActiveTwoLikes 0).all_finished = true ↔
        (0 < activeMemberCount dbOneActiveTwoLikes 0 ∧
          ∀ r ∈ activeMembers dbOneActiveTwoLikes 0,
            MOVIES_PER_ROUND ≤ swipeCountFor dbOneActiveTwoLikes 0 r.user))
    ∧ (activeMemberCount dbOneActiveTwoLikes 0 = 0 →
        check_all_members_finished dbOneActiveTwoLikes 0 = ⟨false, 0, 0, MOVIES_PER_ROUND⟩) :=
  C5_completion_aggregate dbOneActiveTwoLikes 0

theorem findSession_congr (db2 db : DB) (g : Nat) (h : db2.sessions = db.sessions) :
    findSession db2 g = findSession db g := by
  unfold findSession
  rw [h]

theorem isActiveMember_congr (db2 db : DB) (g u : Nat) (h : db2.members = db.members) :
    isActiveMember db2 g u = isActiveMember db g u := by
  unfold isActiveMember
  rw [h]

theorem swipe_like_tail_fields (db : DB) (s : SessionRow) (m st : Nat) :
    (swipe_like_tail db s m st).db.sessions = db.sessions
    ∧ (swipe_like_tail db s m st).db.members = db.members
    ∧ (swipe_like_tail db s m st).db.swipes = db.swipes
    ∧ (swipe_like_tail db s m st).db.nextId = db.nextId
    ∧ (swipe_like_tail db s m st).db.deckCache =
        db.deckCache.filter (fun p => p.1 != s.gid) := by
  unfold swipe_like_tail like_finish invalidate_deck_cache
  repeat' split
  all_goals exact ⟨rfl, rfl, rfl, rfl, rfl⟩

theorem dislike_finish_fields (db : DB) (s : SessionRow) (st : Nat) :
    (dislike_finish db s st).db.sessions = db.sessions
    ∧ (dislike_finish db s st).db.members = db.members
    ∧ (dislike_finish db s st).db.swipes = db.swipes
    ∧ (dislike_finish db s st).db.nextId = db.nextId
    ∧ (dislike_finish db s st).db.deckCache =
        db.deckCache.filter (fun p => p.1 != s.gid) :=
  ⟨rfl, rfl, rfl, rfl, rfl⟩

/-- Reduction of swipe_like to its tail when the prior action differs from
LIKE and the row is updated in place. -/
theorem swipe_like_update_eq (db : DB) (g u m : Nat) (s : SessionRow) (r : SwipeRow)
    (hs : findSession db g = some s) (hk : s.kind = Kind.PRIVATE)
    (hmem : isActiveMember db s.gid u = true)
    (hr : findSwipe db s.gid u m = some r) (ha : ¬(r.action = Action.LIKE)) :
    swipe_like db g u m =
      swipe_like_tail
        { db with swipes := update_swipe_action s.gid u m Action.LIKE db.swipes } s m 200 := by
  unfold swipe_like
  rw [hs]
  simp only [hmem, Bool.not_true, Bool.false_eq_true, if_false]
  rw [if_neg (by rw [hk]; intro hc; exact Kind.noConfusion hc)]
  simp only [hr]
  rw [if_neg ha]

/-- Reduction of swipe_like to its tail when no prior row exists and a fresh
LIKE row is inserted. -/
theorem swipe_like_insert_eq (db : DB) (g u m : Nat) (s : SessionRow)
    (hs : findSession db g = some s) (hk : s.kind = Kind.PRIVATE)
    (hmem : isActiveMember db s.gid u = true)
    (hr : findSwipe db s.gid u m = none) :
    swipe_like db g u m =
      swipe_like_tail
        { db with swipes := SwipeRow.mk s.gid u m Action.LIKE :: db.swipes } s m 201 := by
  unfold swipe_like
  rw [hs]
  simp only [hmem, Bool.not_true, Bool.false_eq_true, if_false]
  rw [if_neg (by rw [hk]; intro hc; exact Kind.noConfusion hc)]
  simp only [hr]

/-- Reduction of swipe_dislike when the prior action differs from DISLIKE. -/
theorem swipe_dislike_update_eq (db : DB) (g u m : Nat) (s : SessionRow) (r : SwipeRow)
    (hs : findSession db g = some s) (hk : s.kind = Kind.PRIVATE)
    (hmem : isActiveMember db s.gid u = true)
    (hr : findSwipe db s.gid u m = some r) (ha : ¬(r.action = Action.DISLIKE)) :
    swipe_dislike db g u m =
      dislike_finish
        { db with swipes := update_swipe_action s.gid u m Action.DISLIKE db.swipes } s 200 := by
  unfold swipe_dislike
  rw [hs]
  simp only [hmem, Bool.not_true, Bool.false_eq_true, if_false]
  rw [if_neg (by rw [hk]; intro hc; exact Kind.noConfusion hc)]
  simp only [hr]
  rw [if_neg ha]

/-- Reduction of swipe_dislike when no prior row exists. -/
theorem swipe_dislike_insert_eq (db : DB) (g u m : Nat) (s : SessionRow)
    (hs : findSession db g = some s) (hk : s.kind = Kind.PRIVATE)
    (hmem : isActiveMember db s.gid u = true)
    (hr : findSwipe db s.gid u m = none) :
    swipe_dislike db g u m =
      dislike_finish
        { db with swipes := SwipeRow.mk s.gid u m Action.DISLIKE :: db.swipes } s 201 := by
  unfold swipe_dislike
  rw [hs]
  simp only [hmem, Bool.not_true, Bool.false_eq_true, if_false]
  rw [if_neg (by rw [hk]; intro hc; exact Kind.noConfusion hc)]
  simp only [hr]

theorem swipeKeyMatch_set_action (g u m : Nat) (a : Action) (r : SwipeRow) :
    swipeKeyMatch g u m { r with action := a } = swipeKeyMatch g u m r :=
  rfl

/-- Updating the action of the keyed row keeps the same row under `find?` for
that key, with the new action. -/
theorem find?_update_swipe_action (g u m : Nat) (a : Action) (l : List SwipeRow)
    (r : SwipeRow) (h : l.find? (swipeKeyMatch g u m) = some r) :
    (update_swipe_action g u m a l).find? (swipeKeyMatch g u m) =
      some { r with action := a } := by
  induction l with
  | nil => cases h
  | cons x xs ih =>
    rw [List.find?_cons] at h
    unfold update_swipe_action
    split
    · rename_i hx
      rw [hx] at h
      simp only [] at h
      cases h
      rw [List.find?_cons, swipeKeyMatch_set_action, hx]
    · rename_i hx
      rw [Bool.not_eq_true] at hx
      rw [hx] at h
      simp only [Bool.false_eq_true, if_false] at h
      rw [List.find?_cons, hx]
      simp only [Bool.false_eq_true, if_false]
      exact ih h

/-- Updating the action of a row does not change the length of any filter that
ignores the action. -/
theorem filter_length_update_swipe_action (g u m : Nat) (a : Action)
    (q : SwipeRow → Bool) (hq : ∀ x, q { x with action := a } = q x) (l : List SwipeRow) :
    ((update_swipe_action g u m a l).filter q).length = (l.filter q).length := by
  induction l with
  | nil => rfl
  | cons x xs ih =>
    unfold update_swipe_action
    split
    · rw [List.filter_cons, List.filter_cons, hq x]
      split <;> simp only [List.length_cons]
    · rw [List.filter_cons, List.filter_cons]
      split
      · simp only [List.length_cons, ih]
      · exact ih

theorem filter_length_pos_of_find?_some {α : Type} {p : α → Bool} {l : List α}
    {r : α} (h : l.find? p = some r) : 0 < (l.filter p).length := by
  have hm : r ∈ l.filter p :=
    List.mem_filter.mpr ⟨List.mem_of_find?_eq_some h, List.find?_some h⟩
  exact List.length_pos.mpr (List.ne_nil_of_mem hm)

/-- C7: recording the same swipe twice is idempotent, for both the LIKE and the
DISLIKE endpoint of a PRIVATE group: after the two calls exactly one GroupSwipe
row exists for the (group, user, movie) triple, the second call changes no state
at all (so in particular performs no insert), and the second call broadcasts no
event — in particular no match_found, even when a GroupMatch for the
(group, movie) already exists. -/
theorem C7_idempotent_reswipe (db : DB) (g u m : Nat) (s : SessionRow)
    (hs : findSession db g = some s) (hk : s.kind = Kind.PRIVATE)
    (hmem : isActiveMember db s.gid u = true)
    (huniq : swipeRowCount db s.gid u m ≤ 1) :
    (swipeRowCount (swipe_like db g u m).db s.gid u m = 1
      ∧ (swipe_like (swipe_like db g u m).db g u m).db = (swipe_like db g u m).db
      ∧ (swipe_like (swipe_like db g u m).db g u m).events = [])
    ∧ (swipeRowCount (swipe_dislike db g u m).db s.gid u m = 1
      ∧ (swipe_dislike (swipe_dislike db g u m).db g u m).db = (swipe_dislike db g u m).db
      ∧ (swipe_dislike (swipe_dislike db g u m).db g u m).events = []) := by
  constructor
  · cases hr : findSwipe db s.gid u m with
    | some r =>
      by_cases ha : r.action = Action.LIKE
      · have h1 := swipe_like_already_like db g u m s r hs hk hmem hr ha
        rw [h1]
        have h2 := swipe_like_already_like db g u m s r hs hk hmem hr ha
        refine ⟨?_, by rw [h2], by rw [h2]⟩
        exact Nat.le_antisymm huniq (filter_length_pos_of_find?_some hr)
      · have h1 := swipe_like_update_eq db g u m s r hs hk hmem hr ha
        have hf := swipe_like_tail_fields
          { db with swipes := update_swipe_action s.gid u m Action.LIKE db.swipes } s m 200
        have hcnt : swipeRowCount (swipe_like db g u m).db s.gid u m = 1 := by
          rw [h1]
          unfold swipeRowCount
          rw [hf.2.2.1]
          rw [filter_length_update_swipe_action s.gid u m Action.LIKE _
            (swipeKeyMatch_set_action s.gid u m Action.LIKE)]
          exact Nat.le_antisymm huniq (filter_length_pos_of_find?_some hr)
        have hs2 : findSession (swipe_like db g u m).db g = some s := by
          rw [findSession_congr _ db g (by rw [h1]; exact hf.1), hs]
        have hmem2 : isActiveMember (swipe_like db g u m).db s.gid u = true := by
          rw [isActiveMember_congr _ db s.gid u (by rw [h1]; exact hf.2.1), hmem]
        have hr2 : findSwipe (swipe_like db g u m).db s.gid u m =
            some { r with action := Action.LIKE } := by
          unfold findSwipe
          rw [show (swipe_like db g u m).db.swipes =
              update_swipe_action s.gid u m Action.LIKE db.swipes by rw [h1]; exact hf.2.2.1]
          exact find?_update_swipe_action s.gid u m Action.LIKE db.swipes r hr
        have h2 := swipe_like_already_like (swipe_like db g u m).db g u m s
          { r with action := Action.LIKE } hs2 hk hmem2 hr2 rfl
        exact ⟨hcnt, by rw [h2], by rw [h2]⟩
    | none =>
      have h1 := swipe_like_insert_eq db g u m s hs hk hmem hr
      have hf := swipe_like_tail_fields
        { db with swipes := SwipeRow.mk s.gid u m Action.LIKE :: db.swipes } s m 201
      have hkey : swipeKeyMatch s.gid u m (SwipeRow.mk s.gid u m Action.LIKE) = true := by
        unfold swipeKeyMatch
        simp
      have hswipes : (swipe_like db g u m).db.swipes =
          SwipeRow.mk s.gid u m Action.LIKE :: db.swipes := by
        rw [h1]
        exact hf.2.2.1
      have hcnt : swipeRowCount (swipe_like db g u m).db s.gid u m = 1 := by
        unfold swipeRowCount
        rw [hswipes, List.filter_cons, if_pos hkey,
          filter_eq_nil_of_find?_none hr]
        rfl
      have hs2 : findSession (swipe_like db g u m).db g = some s := by
        rw [findSession_congr _ db g (by rw [h1]; exact hf.1), hs]
      have hmem2 : isActiveMember (swipe_like db g u m).db s.gid u = true := by
        rw [isActiveMember_congr _ db s.gid u (by rw [h1]; exact hf.2.1), hmem]
      have hr2 : findSwipe (swipe_like db g u m).db s.gid u m =
          some (SwipeRow.mk s.gid u m Action.LIKE) := by
        unfold findSwipe
        rw [hswipes, List.find?_cons, hkey]
      have h2 := swipe_like_already_like (swipe_like db g u m).db g u m s
        (SwipeRow.mk s.gid u m Action.LIKE) hs2 hk hmem2 hr2 rfl
      exact ⟨hcnt, by rw [h2], by rw [h2]⟩
  · cases hr : findSwipe db s.gid u m with
    | some r =>
      by_cases ha : r.action = Action.DISLIKE
      · have h1 := swipe_dislike_already_dislike db g u m s r hs hk hmem hr ha
        rw [h1]
        have h2 := swipe_dislike_already_dislike db g u m s r hs hk hmem hr ha
        refine ⟨?_, by rw [h2], by rw [h2]⟩
        exact Nat.le_antisymm huniq (filter_length_pos_of_find?_some hr)
      · have h1 := swipe_dislike_update_eq db g u m s r hs hk hmem hr ha
        have hf := dislike_finish_fields
          { db with swipes := update_swipe_action s.gid u m Action.DISLIKE db.swipes } s 200
        have hcnt : swipeRowCount (swipe_dislike db g u m).db s.gid u m = 1 := by
          rw [h1]
          unfold swipeRowCount
          rw [hf.2.2.1]
          rw [filter_length_update_swipe_action s.gid u m Action.DISLIKE _
            (swipeKeyMatch_set_action s.gid u m Action.DISLIKE)]
          exact Nat.le_antisymm huniq (filter_length_pos_of_find?_some hr)
        have hs2 : findSession (swipe_dislike db g u m).db g = some s := by
          rw [findSession_congr _ db g (by rw [h1]; exact hf.1), hs]
        have hmem2 : isActiveMember (swipe_dislike db g u m).db s.gid u = true := by
          rw [isActiveMember_congr _ db s.gid u (by rw [h1]; exact hf.2.1), hmem]
        have hr2 : findSwipe (swipe_dislike db g u m).db s.gid u m =
            some { r with action := Action.DISLIKE } := by
          unfold findSwipe
          rw [show (swipe_dislike db g u m).db.swipes =
              update_swipe_action s.gid u m Action.DISLIKE db.swipes by rw [h1]; exact hf.2.2.1]
          exact find?_update_swipe_action s.gid u m Action.DISLIKE db.swipes r hr
        have h2 := swipe_dislike_already_dislike (swipe_dislike db g u m).db g u m s
          { r with action := Action.DISLIKE } hs2 hk hmem2 hr2 rfl
        exact ⟨hcnt, by rw [h2], by rw [h2]⟩
    | none =>
      have h1 := swipe_dislike_insert_eq db g u m s hs hk hmem hr
      have hf := dislike_finish_fields
        { db with swipes := SwipeRow.mk s.gid u m Action.DISLIKE :: db.swipes } s 201
      have hkey : swipeKeyMatch s.gid u m (SwipeRow.mk s.gid u m Action.DISLIKE) = true := by
        unfold swipeKeyMatch
        simp
      have hswipes : (swipe_dislike db g u m).db.swipes =
          SwipeRow.mk s.gid u m Action.DISLIKE :: db.swipes := by
        rw [h1]
        exact hf.2.2.1
      have hcnt : swipeRowCount (swipe_dislike db g u m).db s.gid u m = 1 := by
        unfold swipeRowCount
        rw [hswipes, List.filter_cons, if_pos hkey,
          filter_eq_nil_of_find?_none hr]
        rfl
      have hs2 : findSession (swipe_dislike db g u m).db g = some s := by
        rw [findSession_congr _ db g (by rw [h1]; exact hf.1), hs]
      have hmem2 : isActiveMember (swipe_dislike db g u m).db s.gid u = true := by
        rw [isActiveMember_congr _ db s.gid u (by rw [h1]; exact hf.2.1), hmem]
      have hr2 : findSwipe (swipe_dislike db g u m).db s.gid u m =
          some (SwipeRow.mk s.gid u m Action.DISLIKE) := by
        unfold findSwipe
        rw [hswipes, List.find?_cons, hkey]
      have h2 := swipe_dislike_already_dislike (swipe_dislike db g u m).db g u m s
        (SwipeRow.mk s.gid u m Action.DISLIKE) hs2 hk hmem2 hr2 rfl
      exact ⟨hcnt, by rw [h2], by rw [h2]⟩

/-- C7 witness: the idempotence facts instantiated in a fresh one-member group
for user 1 and movie 550. -/
theorem C7_witness :
    (swipeRowCount (swipe_like dbFreshGroup 0 1 550).db 0 1 550 = 1
      ∧ (swipe_like (swipe_like dbFreshGroup 0 1 550).db 0 1 550).db =
          (swipe_like dbFreshGroup 0 1 550).db
      ∧ (swipe_like (swipe_like dbFreshGroup 0 1 550).db 0 1 550).events = [])
    ∧ (swipeRowCount (swipe_dislike dbFreshGroup 0 1 550).db 0 1 550 = 1
      ∧ (swipe_dislike (swipe_dislike dbFreshGroup 0 1 550).db 0 1 550).db =
          (swipe_dislike dbFreshGroup 0 1 550).db
      ∧ (swipe_dislike (swipe_dislike dbFreshGroup 0 1 550).db 0 1 550).events = []) :=
  C7_idempotent_reswipe dbFreshGroup 0 1 550 ⟨0, 1, true, false, Kind.PRIVATE, none⟩
    (by decide) rfl (by decide) (by decide)

/-! ## Lemmas for the deck-exclusion claim -/

theorem any_update_swipe_action (g u m : Nat) (a : Action) (q : SwipeRow → Bool)
    (hq : ∀ x, q { x with action := a } = q x) (l : List SwipeRow) :
    (update_swipe_action g u m a l).any q = l.any q := by
  induction l with
  | nil => rfl
  | cons x xs ih =>
    unfold update_swipe_action
    split
    · rw [List.any_cons, List.any_cons, hq x]
    · rw [List.any_cons, List.any_cons, ih]

theorem mem_update_swipe_action (g u m : Nat) (a : Action) (l : List SwipeRow)
    (r2 : SwipeRow) (h : r2 ∈ update_swipe_action g u m a l) :
    ∃ r ∈ l, r2.gid = r.gid := by
  induction l with
  | nil => cases h
  | cons x xs ih =>
    unfold update_swipe_action at h
    split at h
    · rcases List.mem_cons.mp h with rfl | h2
      · exact ⟨x, List.mem_cons_self x xs, rfl⟩
      · exact ⟨r2, List.mem_cons_of_mem x h2, rfl⟩
    · rcases List.mem_cons.mp h with rfl | h2
      · exact ⟨r2, List.mem_cons_self r2 xs, rfl⟩
      · obtain ⟨r, hr, he⟩ := ih h2
        exact ⟨r, List.mem_cons_of_mem x hr, he⟩

theorem any_false_of_sublist {α : Type} {l1 l2 : List α} (h : l1.Sublist l2)
    (p : α → Bool) (hp : l2.any p = false) : l1.any p = false := by
  rw [List.any_eq_false] at hp ⊢
  intro x hx
  exact hp x (h.subset hx)

theorem hasSwipe_swipes_congr (db2 db : DB) (g m : Nat) (h : db2.swipes = db.swipes) :
    hasSwipe db2 g m = hasSwipe db g m := by
  unfold hasSwipe
  rw [h]

theorem hasSwipe_eq_false_of_all_ne (db : DB) (g m : Nat)
    (h : ∀ r ∈ db.swipes, r.gid ≠ g) : hasSwipe db g m = false := by
  unfold hasSwipe
  rw [List.any_eq_false]
  intro r hr
  simp only [Bool.and_eq_true, beq_iff_eq, not_and]
  intro hg
  exact absurd hg (h r hr)

/-- The ids collected by the PRIVATE deck filter are exactly the movies with a
GroupSwipe row in the group. -/
theorem contains_groupSwipedIds (db : DB) (g m : Nat) :
    (groupSwipedIds db g).contains m = hasSwipe db g m := by
  rw [Bool.eq_iff_iff]
  unfold groupSwipedIds hasSwipe
  rw [List.elem_iff, List.any_eq_true]
  constructor
  · intro h
    obtain ⟨r, hr, he⟩ := List.mem_map.mp h
    refine ⟨r, List.mem_of_mem_filter hr, ?_⟩
    have hg := List.of_mem_filter hr
    rw [Bool.and_eq_true]
    exact ⟨hg, by rw [he]; simp⟩
  · intro ⟨r, hr, hp⟩
    rw [Bool.and_eq_true, beq_iff_eq, beq_iff_eq] at hp
    refine List.mem_map.mpr ⟨r, List.mem_filter.mpr ⟨hr, by rw [beq_iff_eq]; exact hp.1⟩, hp.2⟩

/-- State shape of swipe_like: either the GroupSwipe table and the deck cache are
untouched (404, 403, COMMUNITY branch, already-LIKE early return), or the call
went through the PRIVATE branch of the found session: its swipe row was updated
in place or freshly inserted, and the group's deck-cache entry was evicted. -/
theorem swipe_like_state_spec (db : DB) (g u m : Nat) :
    ((swipe_like db g u m).db.sessions = db.sessions
      ∧ (swipe_like db g u m).db.nextId = db.nextId) ∧
    (((swipe_like db g u m).db.swipes = db.swipes
        ∧ (swipe_like db g u m).db.deckCache = db.deckCache)
      ∨ ∃ s, findSession db g = some s ∧ ¬(s.kind = Kind.COMMUNITY) ∧
          ((swipe_like db g u m).db.swipes =
              update_swipe_action s.gid u m Action.LIKE db.swipes
            ∨ (swipe_like db g u m).db.swipes =
              SwipeRow.mk s.gid u m Action.LIKE :: db.swipes) ∧
          (swipe_like db g u m).db.deckCache =
            db.deckCache.filter (fun p => p.1 != s.gid)) := by
  unfold swipe_like
  split
  · exact ⟨⟨rfl, rfl⟩, Or.inl ⟨rfl, rfl⟩⟩
  · rename_i s hfs
    split
    · exact ⟨⟨rfl, rfl⟩, Or.inl ⟨rfl, rfl⟩⟩
    · split
      · split
        · exact ⟨⟨rfl, rfl⟩, Or.inl ⟨rfl, rfl⟩⟩
        · exact ⟨⟨rfl, rfl⟩, Or.inl ⟨rfl, rfl⟩⟩
      · rename_i hk
        split
        · rename_i r hsw
          split
          · exact ⟨⟨rfl, rfl⟩, Or.inl ⟨rfl, rfl⟩⟩
          · have hf := swipe_like_tail_fields
              { db with swipes := update_swipe_action s.gid u m Action.LIKE db.swipes } s m 200
            exact ⟨⟨hf.1, hf.2.2.2.1⟩, Or.inr ⟨s, hfs, hk, Or.inl hf.2.2.1, hf.2.2.2.2⟩⟩
        · have hf := swipe_like_tail_fields
            { db with swipes := SwipeRow.mk s.gid u m Action.LIKE :: db.swipes } s m 201
          exact ⟨⟨hf.1, hf.2.2.2.1⟩, Or.inr ⟨s, hfs, hk, Or.inr hf.2.2.1, hf.2.2.2.2⟩⟩

/-- State shape of swipe_dislike, mirroring `swipe_like_state_spec`. -/
theorem swipe_dislike_state_spec (db : DB) (g u m : Nat) :
    ((swipe_dislike db g u m).db.sessions = db.sessions
      ∧ (swipe_dislike db g u m).db.nextId = db.nextId) ∧
    (((swipe_dislike db g u m).db.swipes = db.swipes
        ∧ (swipe_dislike db g u m).db.deckCache = db.deckCache)
      ∨ ∃ s, findSession db g = some s ∧ ¬(s.kind = Kind.COMMUNITY) ∧
          ((swipe_dislike db g u m).db.swipes =
              update_swipe_action s.gid u m Action.DISLIKE db.swipes
            ∨ (swipe_dislike db g u m).db.swipes =
              SwipeRow.mk s.gid u m Action.DISLIKE :: db.swipes) ∧
          (swipe_dislike db g u m).db.deckCache =
            db.deckCache.filter (fun p => p.1 != s.gid)) := by
  unfold swipe_dislike
  split
  · exact ⟨⟨rfl, rfl⟩, Or.inl ⟨rfl, rfl⟩⟩
  · rename_i s hfs
    split
    · exact ⟨⟨rfl, rfl⟩, Or.inl ⟨rfl, rfl⟩⟩
    · split
      · split
        · exact ⟨⟨rfl, rfl⟩, Or.inl ⟨rfl, rfl⟩⟩
        · exact ⟨⟨rfl, rfl⟩, Or.inl ⟨rfl, rfl⟩⟩
      · rename_i hk
        split
        · rename_i r hsw
          split
          · exact ⟨⟨rfl, rfl⟩, Or.inl ⟨rfl, rfl⟩⟩
          · have hf := dislike_finish_fields
              { db with swipes := update_swipe_action s.gid u m Action.DISLIKE db.swipes } s 200
            exact ⟨⟨hf.1, hf.2.2.2.1⟩, Or.inr ⟨s, hfs, hk, Or.inl hf.2.2.1, hf.2.2.2.2⟩⟩
        · have hf := dislike_finish_fields
            { db with swipes := SwipeRow.mk s.gid u m Action.DISLIKE :: db.swipes } s 201
          exact ⟨⟨hf.1, hf.2.2.2.1⟩, Or.inr ⟨s, hfs, hk, Or.inr hf.2.2.1, hf.2.2.2.2⟩⟩

/-- State shape of join_group: only the member table can change. -/
theorem join_group_state_spec (db : DB) (g u : Nat) :
    (join_group db g u).db.sessions = db.sessions
    ∧ (join_group db g u).db.swipes = db.swipes
    ∧ (join_group db g u).db.deckCache = db.deckCache
    ∧ (join_group db g u).db.nextId = db.nextId := by
  unfold join_group
  repeat' split
  all_goals exact ⟨rfl, rfl, rfl, rfl⟩

/-- State shape of join_or_create_community_group: either only the member table
changes, or a fresh COMMUNITY session with no members is prepended. -/
theorem join_community_state_spec (db : DB) (genre u : Nat) :
    (join_or_create_community_group db genre u).db.swipes = db.swipes
    ∧ (join_or_create_community_group db genre u).db.deckCache = db.deckCache
    ∧ (((join_or_create_community_group db genre u).db.sessions = db.sessions
        ∧ (join_or_create_community_group db genre u).db.nextId = db.nextId)
      ∨ ((join_or_create_community_group db genre u).db.sessions =
          SessionRow.mk db.nextId u true true Kind.COMMUNITY (some genre) :: db.sessions
        ∧ (join_or_create_community_group db genre u).db.nextId = db.nextId + 1)) := by
  unfold join_or_create_community_group
  split
  · split
    · exact ⟨rfl, rfl, Or.inl ⟨rfl, rfl⟩⟩
    · exact ⟨rfl, rfl, Or.inl ⟨rfl, rfl⟩⟩
  · exact ⟨rfl, rfl, Or.inr ⟨rfl, rfl⟩⟩

/-- State shape of the deck view: either nothing changes (404, 403 or a
non-empty cache hit), or the freshly filtered candidate list is cached for the
found session's group. -/
theorem get_deck_state_spec (db : DB) (g u limit : Nat) (cand : List Nat) :
    (get_group_deck_view db g u limit cand).db.sessions = db.sessions
    ∧ (get_group_deck_view db g u limit cand).db.members = db.members
    ∧ (get_group_deck_view db g u limit cand).db.swipes = db.swipes
    ∧ (get_group_deck_view db g u limit cand).db.nextId = db.nextId
    ∧ ((get_group_deck_view db g u limit cand).db.deckCache = db.deckCache
      ∨ ∃ s, findSession db g = some s ∧
          (get_group_deck_view db g u limit cand).db.deckCache =
            (s.gid, cand.filter (fun x =>
              !((if s.kind = Kind.COMMUNITY then communitySwipedIds db s.gid
                 else groupSwipedIds db s.gid).contains x)))
              :: db.deckCache.filter (fun p => p.1 != s.gid)) := by
  unfold get_group_deck_view get_group_deck cacheSet
  split
  · exact ⟨rfl, rfl, rfl, rfl, Or.inl rfl⟩
  · rename_i s hfs
    split
    · exact ⟨rfl, rfl, rfl, rfl, Or.inl rfl⟩
    · split
      · exact ⟨rfl, rfl, rfl, rfl, Or.inl rfl⟩
      · exact ⟨rfl, rfl, rfl, rfl, Or.inr ⟨s, hfs, rfl⟩⟩

/-- Movie lists returned by the deck view: empty, served from the cache entry of
the found session, or the freshly filtered candidate list (up to the clamped
limit prefix in both cases). -/
theorem get_deck_deckOf_spec (db : DB) (g u limit : Nat) (cand : List Nat) :
    deckOf (get_group_deck_view db g u limit cand) = [] ∨
    ∃ s, findSession db g = some s ∧
      ((∃ x xs, cacheGet db s.gid = some (x :: xs) ∧
          deckOf (get_group_deck_view db g u limit cand) =
            (x :: xs).take (min (max limit 1) 100))
       ∨ deckOf (get_group_deck_view db g u limit cand) =
          (cand.filter (fun y =>
            !((if s.kind = Kind.COMMUNITY then communitySwipedIds db s.gid
               else groupSwipedIds db s.gid).contains y))).take (min (max limit 1) 100)) := by
  unfold get_group_deck_view get_group_deck
  split
  · exact Or.inl rfl
  · rename_i s hfs
    split
    · exact Or.inl rfl
    · split
      · rename_i x xs hcg
        exact Or.inr ⟨s, hfs, Or.inl ⟨x, xs, hcg, rfl⟩⟩
      · exact Or.inr ⟨s, hfs, Or.inr rfl⟩

/-- State shape of the clear-swipes view: either nothing changes, or all of the
found session's swipe rows are deleted and its cache entry evicted. -/
theorem clear_swipes_state_spec (db : DB) (g u : Nat) :
    (clear_group_swipes_view db g u).db.sessions = db.sessions
    ∧ (clear_group_swipes_view db g u).db.nextId = db.nextId
    ∧ (((clear_group_swipes_view db g u).db.swipes = db.swipes
        ∧ (clear_group_swipes_view db g u).db.deckCache = db.deckCache)
      ∨ ∃ s, findSession db g = some s ∧
          (clear_group_swipes_view db g u).db.swipes =
            db.swipes.filter (fun r => r.gid != s.gid)
          ∧ (clear_group_swipes_view db g u).db.deckCache =
            db.deckCache.filter (fun p => p.1 != s.gid)) := by
  unfold clear_group_swipes_view clear_group_swipes invalidate_deck_cache
  split
  · exact ⟨rfl, rfl, Or.inl ⟨rfl, rfl⟩⟩
  · rename_i s hfs
    split
    · exact ⟨rfl, rfl, Or.inl ⟨rfl, rfl⟩⟩
    · exact ⟨rfl, rfl, Or.inr ⟨s, hfs, rfl, rfl⟩⟩

/-- The invariant only reads sessions, swipes, deck cache and nextId, so it
transfers along equality of those fields. -/
theorem Inv_congr (db2 db : DB) (h1 : db2.sessions = db.sessions)
    (h2 : db2.swipes = db.swipes) (h3 : db2.deckCache = db.deckCache)
    (h4 : db2.nextId = db.nextId) (hi : Inv db) : Inv db2 := by
  constructor
  · intro p hp m hm
    rw [h3] at hp
    rw [hasSwipe_swipes_congr db2 db p.1 m h2]
    exact hi.cacheOk p hp m hm
  · intro s hs hk r hr
    rw [h1] at hs
    rw [h2] at hr
    exact hi.commNoSwipes s hs hk r hr
  · rw [h1]
    exact hi.gidsNodup
  · intro s hs
    rw [h1] at hs
    rw [h4]
    exact hi.gidsLt s hs
  · intro r hr
    rw [h2] at hr
    rw [h4]
    exact hi.swipesLt r hr

/-- Prepending a fresh session (gid = nextId) and bumping nextId preserves the
invariant, for either kind: a fresh COMMUNITY session owns no swipe rows because
every existing row's gid is below nextId. -/
theorem Inv_fresh_session (db2 db : DB) (s : SessionRow)
    (hgid : s.gid = db.nextId)
    (h1 : db2.sessions = s :: db.sessions) (h2 : db2.swipes = db.swipes)
    (h3 : db2.deckCache = db.deckCache) (h4 : db2.nextId = db.nextId + 1)
    (hi : Inv db) : Inv db2 := by
  constructor
  · intro p hp m hm
    rw [h3] at hp
    rw [hasSwipe_swipes_congr db2 db p.1 m h2]
    exact hi.cacheOk p hp m hm
  · intro t ht hk r hr
    rw [h1] at ht
    rw [h2] at hr
    rcases List.mem_cons.mp ht with rfl | ht2
    · rw [hgid]
      exact Nat.ne_of_lt (hi.swipesLt r hr)
    · exact hi.commNoSwipes t ht2 hk r hr
  · rw [h1, List.map_cons]
    refine List.nodup_cons.mpr ⟨?_, hi.gidsNodup⟩
    intro hmem
    obtain ⟨t, ht, he⟩ := List.mem_map.mp hmem
    rw [hgid] at he
    exact absurd he (Nat.ne_of_lt (hi.gidsLt t ht))
  · intro t ht
    rw [h1] at ht
    rw [h4]
    rcases List.mem_cons.mp ht with rfl | ht2
    · rw [hgid]
      exact Nat.lt_succ_self db.nextId
    · exact Nat.lt_succ_of_lt (hi.gidsLt t ht2)
  · intro r hr
    rw [h2] at hr
    rw [h4]
    exact Nat.lt_succ_of_lt (hi.swipesLt r hr)

/-- Recording a swipe (update-in-place or insert) for the found non-COMMUNITY
session, together with the eviction of that group's cache entry, preserves the
invariant. -/
theorem Inv_recorded (db2 db : DB) (g u m : Nat) (a : Action) (s : SessionRow)
    (hfs : findSession db g = some s) (hk : ¬(s.kind = Kind.COMMUNITY))
    (h1 : db2.sessions = db.sessions)
    (hsw : db2.swipes = update_swipe_action s.gid u m a db.swipes
      ∨ db2.swipes = SwipeRow.mk s.gid u m a :: db.swipes)
    (hca : db2.deckCache = db.deckCache.filter (fun p => p.1 != s.gid))
    (h4 : db2.nextId = db.nextId) (hi : Inv db) : Inv db2 := by
  obtain ⟨hgid, -, hsmem⟩ := findSession_eq db g s hfs
  constructor
  · intro p hp m2 hm2
    rw [hca] at hp
    have hpin := List.mem_of_mem_filter hp
    have hpne : p.1 ≠ s.gid := by
      have hb := List.of_mem_filter hp
      simpa [bne_iff_ne] using hb
    have hold := hi.cacheOk p hpin m2 hm2
    unfold hasSwipe at hold ⊢
    rcases hsw with hswu | hswc
    · rw [hswu, any_update_swipe_action s.gid u m a
        (fun r => r.gid == p.1 && r.movie == m2) (fun x => rfl)]
      exact hold
    · rw [hswc, List.any_cons, hold]
      have hne : ¬(s.gid = p.1) := fun hc => hpne hc.symm
      simp [hne]
  · intro t ht hkt r hr
    rw [h1] at ht
    rcases hsw with hswu | hswc
    · rw [hswu] at hr
      obtain ⟨r0, hr0, he⟩ := mem_update_swipe_action s.gid u m a db.swipes r hr
      rw [he]
      exact hi.commNoSwipes t ht hkt r0 hr0
    · rw [hswc] at hr
      rcases List.mem_cons.mp hr with rfl | hr2
      · show s.gid ≠ t.gid
        intro heq
        have hts : s = t := List.inj_on_of_nodup_map hi.gidsNodup hsmem ht heq
        rw [← hts] at hkt
        exact hk hkt
      · exact hi.commNoSwipes t ht hkt r hr2
  · rw [h1]
    exact hi.gidsNodup
  · intro t ht
    rw [h1] at ht
    rw [h4]
    exact hi.gidsLt t ht
  · intro r hr
    rw [h4]
    rcases hsw with hswu | hswc
    · rw [hswu] at hr
      obtain ⟨r0, hr0, he⟩ := mem_update_swipe_action s.gid u m a db.swipes r hr
      rw [he]
      exact hi.swipesLt r0 hr0
    · rw [hswc] at hr
      rcases List.mem_cons.mp hr with rfl | hr2
      · show s.gid < db.nextId
        exact hi.gidsLt s hsmem
      · exact hi.swipesLt r hr2

/-- Every request preserves the state invariant. -/
theorem step_Inv (db : DB) (op : Op) (hi : Inv db) : Inv (step db op).db := by
  cases op with
  | createGroup u =>
    exact Inv_fresh_session (create_group db u).db db
      ⟨db.nextId, u, true, false, Kind.PRIVATE, none⟩ rfl rfl rfl rfl rfl hi
  | joinGroup g u =>
    have h := join_group_state_spec db g u
    exact Inv_congr _ db h.1 h.2.1 h.2.2.1 h.2.2.2 hi
  | joinCommunity genre u =>
    have h := join_community_state_spec db genre u
    rcases h.2.2 with ⟨hs, hn⟩ | ⟨hs, hn⟩
    · exact Inv_congr _ db hs h.1 h.2.1 hn hi
    · exact Inv_fresh_session _ db
        ⟨db.nextId, u, true, true, Kind.COMMUNITY, some genre⟩ rfl hs h.1 h.2.1 hn hi
  | swipeLike g u m =>
    have h := swipe_like_state_spec db g u m
    rcases h.2 with ⟨hsw, hca⟩ | ⟨s, hfs, hk, hsw, hca⟩
    · exact Inv_congr _ db h.1.1 hsw hca h.1.2 hi
    · exact Inv_recorded _ db g u m Action.LIKE s hfs hk h.1.1 hsw hca h.1.2 hi
  | swipeDislike g u m =>
    have h := swipe_dislike_state_spec db g u m
    rcases h.2 with ⟨hsw, hca⟩ | ⟨s, hfs, hk, hsw, hca⟩
    · exact Inv_congr _ db h.1.1 hsw hca h.1.2 hi
    · exact Inv_recorded _ db g u m Action.DISLIKE s hfs hk h.1.1 hsw hca h.1.2 hi
  | getDeck g u limit cand =>
    show Inv (get_group_deck_view db g u limit cand).db
    have h := get_deck_state_spec db g u limit cand
    rcases h.2.2.2.2 with hca | ⟨s, hfs, hca⟩
    · exact Inv_congr _ db h.1 h.2.2.1 hca h.2.2.2.1 hi
    · obtain ⟨hgid, -, hsmem⟩ := findSession_eq db g s hfs
      constructor
      · intro p hp m hm
        rw [hca] at hp
        rw [hasSwipe_swipes_congr _ db p.1 m h.2.2.1]
        rcases List.mem_cons.mp hp with rfl | hp2
        · show hasSwipe db s.gid m = false
          have hpf := List.of_mem_filter hm
          by_cases hkc : s.kind = Kind.COMMUNITY
          · refine hasSwipe_eq_false_of_all_ne db s.gid m ?_
            intro r hr
            exact hi.commNoSwipes s hsmem hkc r hr
          · rw [if_neg hkc] at hpf
            rw [← contains_groupSwipedIds db s.gid m]
            rw [Bool.not_eq_true'] at hpf
            exact hpf
        · exact hi.cacheOk p (List.mem_of_mem_filter hp2) m hm
      · intro t ht hkt r hr
        rw [h.1] at ht
        rw [h.2.2.1] at hr
        exact hi.commNoSwipes t ht hkt r hr
      · rw [h.1]
        exact hi.gidsNodup
      · intro t ht
        rw [h.1] at ht
        rw [h.2.2.2.1]
        exact hi.gidsLt t ht
      · intro r hr
        rw [h.2.2.1] at hr
        rw [h.2.2.2.1]
        exact hi.swipesLt r hr
  | clearSwipes g u =>
    show Inv (clear_group_swipes_view db g u).db
    have h := clear_swipes_state_spec db g u
    rcases h.2.2 with ⟨hsw, hca⟩ | ⟨s, hfs, hsw, hca⟩
    · exact Inv_congr _ db h.1 hsw hca h.2.1 hi
    · constructor
      · intro p hp m hm
        rw [hca] at hp
        have hold := hi.cacheOk p (List.mem_of_mem_filter hp) m hm
        unfold hasSwipe at hold ⊢
        rw [hsw]
        exact any_false_of_sublist (List.filter_sublist db.swipes) _ hold
      · intro t ht hkt r hr
        rw [h.1] at ht
        rw [hsw] at hr
        exact hi.commNoSwipes t ht hkt r (List.mem_of_mem_filter hr)
      · rw [h.1]
        exact hi.gidsNodup
      · intro t ht
        rw [h.1] at ht
        rw [h.2.1]
        exact hi.gidsLt t ht
      · intro r hr
        rw [hsw] at hr
        rw [h.2.1]
        exact hi.swipesLt r (List.mem_of_mem_filter hr)
  | cacheExpire g =>
    show Inv (invalidate_deck_cache db g)
    constructor
    · intro p hp m hm
      have hold := hi.cacheOk p (List.mem_of_mem_filter hp) m hm
      exact hold
    · exact hi.commNoSwipes
    · exact hi.gidsNodup
    · exact hi.gidsLt
    · exact hi.swipesLt

/-- The empty deployment state satisfies the invariant. -/
theorem initDB_Inv : Inv initDB := by
  constructor
  · intro p hp
    cases hp
  · intro s hs
    cases hs
  · exact List.nodup_nil
  · intro s hs
    cases hs
  · intro r hr
    cases hr

/-- Every state reached by a request sequence satisfies the invariant. -/
theorem run_Inv (ops : List Op) (db : DB) (hi : Inv db) : Inv (run db ops).1 := by
  induction ops generalizing db with
  | nil => exact hi
  | cons op ops ih =>
    show Inv (run (step db op).db ops).1
    exact ih (step db op).db (step_Inv db op hi)

/-- C6: every movie id in a deck returned by the deck view, in any state
reachable by a request sequence from the empty state, has no GroupSwipe row for
(group, any user, movie) at the time of the call — whether the deck was freshly
generated (the service filters against the already-swiped ids) or served from
the deck cache (every swipe-recording mutation evicts the group's entry, so the
invariant `Inv.cacheOk` holds of every cached entry). -/
theorem C6_deck_excludes_swiped (ops : List Op) (g u limit m : Nat) (cand : List Nat)
    (h : m ∈ deckOf (get_group_deck_view (runDB ops) g u limit cand)) :
    hasSwipe (runDB ops) g m = false := by
  have hi : Inv (runDB ops) := run_Inv ops initDB initDB_Inv
  rcases get_deck_deckOf_spec (runDB ops) g u limit cand with hnil | ⟨s, hfs, hsh⟩
  · rw [hnil] at h
    cases h
  · obtain ⟨hgid, -, hsmem⟩ := findSession_eq (runDB ops) g s hfs
    rw [← hgid]
    rcases hsh with ⟨x, xs, hcg, hdeck⟩ | hdeck
    · rw [hdeck] at h
      have hmem : m ∈ x :: xs := List.mem_of_mem_take h
      unfold cacheGet at hcg
      obtain ⟨pr, hfind, hpr2⟩ := Option.map_eq_some'.mp hcg
      have hprin := List.mem_of_find?_eq_some hfind
      have hpr1 : pr.1 = s.gid := by
        have hb := List.find?_some hfind
        rwa [beq_iff_eq] at hb
      rw [← hpr1]
      refine hi.cacheOk pr hprin m ?_
      rw [hpr2]
      exact hmem
    · rw [hdeck] at h
      have hmem := List.mem_of_mem_take h
      have hpf := List.of_mem_filter hmem
      by_cases hkc : s.kind = Kind.COMMUNITY
      · refine hasSwipe_eq_false_of_all_ne (runDB ops) s.gid m ?_
        intro r hr
        exact hi.commNoSwipes s hsmem hkc r hr
      · rw [if_neg hkc] at hpf
        rw [← contains_groupSwipedIds (runDB ops) s.gid m]
        rw [Bool.not_eq_true'] at hpf
        exact hpf

/-- C6 witness: in a fresh two-member group the deck view returns candidate
movie 7, and no GroupSwipe row for (group 0, movie 7) exists at call time. -/
theorem C6_witness : hasSwipe (runDB twoMemberOps) 0 7 = false :=
  C6_deck_excludes_swiped twoMemberOps 0 1 10 7 [7, 8] (by decide)

end CineMatch
